import Mathlib

/-!
# AsyncLoadingScreen: the settings model of `LoadingScreenSettings.h`

A shallow embedding of the declarations of
`Source/AsyncLoadingScreen/Public/LoadingScreenSettings.h`.

* Every `USTRUCT` is a Lean structure with the same member names.  A member
  with an in-class initialiser has that initialiser as its field default; a
  member declared without one has no default, and the `init` function of the
  record takes its value from an `Unset` record, so that statements about a
  default-initialised record hold for every value such a member may have.
* `int32` members are `Int`, `float` members are `ℚ` (a literal such as
  `0.05f` is read as the rational it denotes).
* The `meta = (ClampMin = .., ClampMax = .., UIMin = .., UIMax = ..)` entries
  of a `UPROPERTY` are embedded as a `PropertyMeta` value per member.
* The constructors `FLoadingWidgetSettings()` and
  `ULoadingScreenSettings(const FObjectInitializer&)` are only declared in the
  header.  The embedding gives the records as the in-class member initialisers
  leave them, which is the state in which a constructor body starts.
-/

namespace AsyncLoadingScreen

/-! ## Host-engine types used by the header -/

/-- Engine enum `EHorizontalAlignment` (the header only uses it; the
alternatives are the four the data model lists: fill, left, center, right). -/
inductive EHorizontalAlignment
  | HAlign_Fill
  | HAlign_Left
  | HAlign_Center
  | HAlign_Right
  deriving DecidableEq, Repr

/-- Engine enum `EVerticalAlignment` (fill, top, center, bottom). -/
inductive EVerticalAlignment
  | VAlign_Fill
  | VAlign_Top
  | VAlign_Center
  | VAlign_Bottom
  deriving DecidableEq, Repr

/-- Engine enum `ETextJustify::Type` (left, center, right). -/
inductive ETextJustify
  | Left
  | Center
  | Right
  deriving DecidableEq, Repr

/-- Engine enum `EStretch::Type`, the scaling applied to a background image. -/
inductive EStretch
  | None
  | Fill
  | ScaleToFit
  | ScaleToFitX
  | ScaleToFitY
  | ScaleToFill
  | ScaleBySafeZone
  | UserSpecified
  deriving DecidableEq, Repr

/-- Engine enum `EMoviePlaybackType`: play once, loop, loop the last movie.
The header names the third alternative `MT_LoopLast` in the comment of
`PlaybackType`. -/
inductive EMoviePlaybackType
  | MT_Normal
  | MT_Looped
  | MT_LoopLast
  deriving DecidableEq, Repr

/-- Engine type `FVector2D`. -/
structure FVector2D where
  X : ℚ
  Y : ℚ
  deriving DecidableEq

/-- Engine type `FLinearColor`. -/
structure FLinearColor where
  R : ℚ
  G : ℚ
  B : ℚ
  A : ℚ
  deriving DecidableEq

/-- Engine constant `FLinearColor::White`. -/
def FLinearColor.White : FLinearColor := ⟨1, 1, 1, 1⟩

/-- Engine constant `FLinearColor::Black`. -/
def FLinearColor.Black : FLinearColor := ⟨0, 0, 0, 1⟩

/-- Engine type `FSlateColor`, here always built from a linear colour. -/
structure FSlateColor where
  SpecifiedColor : FLinearColor
  deriving DecidableEq

/-- Engine type `FMargin`; its default constructor gives four zero margins. -/
structure FMargin where
  Left : ℚ := 0
  Top : ℚ := 0
  Right : ℚ := 0
  Bottom : ℚ := 0
  deriving DecidableEq

/-- Engine type `FSlateBrush`, kept as the reference of the resource it draws
(`none` for the default-constructed brush). -/
structure FSlateBrush where
  ResourceObject : Option String := none
  deriving DecidableEq

/-- Engine type `FSlateFontInfo`, kept as the reference of the font object. -/
structure FSlateFontInfo where
  FontObject : Option String := none
  deriving DecidableEq

/-! ## Enumerations of the header -/

/-- Async loading screen layouts (`enum class EAsyncLoadingScreenLayout : uint8`). -/
inductive EAsyncLoadingScreenLayout
  | ALSL_Classic
  | ALSL_Center
  | ALSL_Letterbox
  | ALSL_Sidebar
  | ALSL_DualSidebar
  deriving DecidableEq, Repr, Fintype

/-- Loading icon type (`enum class ELoadingIconType : uint8`). -/
inductive ELoadingIconType
  | LIT_Throbber
  | LIT_CircularThrobber
  | LIT_ImageSequence
  deriving DecidableEq, Repr, Fintype

/-- Loading widget type (`enum class ELoadingWidgetType : uint8`). -/
inductive ELoadingWidgetType
  | LWT_Horizontal
  | LWT_Vertical
  deriving DecidableEq, Repr, Fintype

/-- Underlying `uint8` value of a layout tag: enumerators without an explicit
value count up from zero in declaration order. -/
def EAsyncLoadingScreenLayout.toUInt8 : EAsyncLoadingScreenLayout → Nat
  | .ALSL_Classic => 0
  | .ALSL_Center => 1
  | .ALSL_Letterbox => 2
  | .ALSL_Sidebar => 3
  | .ALSL_DualSidebar => 4

/-- Underlying `uint8` value of an icon type. -/
def ELoadingIconType.toUInt8 : ELoadingIconType → Nat
  | .LIT_Throbber => 0
  | .LIT_CircularThrobber => 1
  | .LIT_ImageSequence => 2

/-! ## Records of the header -/

/-- Alignment for widget (`struct FWidgetAlignment`). -/
structure FWidgetAlignment where
  HorizontalAlignment : EHorizontalAlignment := EHorizontalAlignment.HAlign_Center
  VerticalAlignment : EVerticalAlignment := EVerticalAlignment.VAlign_Center
  deriving DecidableEq

/-- Text appearance settings (`struct FTextAppearance`).  `ShadowOffset`,
`ShadowColorAndOpacity` and `Justification` have no initialiser. -/
structure FTextAppearance where
  ColorAndOpacity : FSlateColor := ⟨FLinearColor.White⟩
  Font : FSlateFontInfo := {}
  ShadowOffset : FVector2D
  ShadowColorAndOpacity : FLinearColor
  Justification : ETextJustify
  deriving DecidableEq

/-- Linear throbber settings (`struct FThrobberSettings`). -/
structure FThrobberSettings where
  NumberOfPieces : Int := 3
  bAnimateHorizontally : Bool := true
  bAnimateVertically : Bool := true
  bAnimateOpacity : Bool := true
  Image : FSlateBrush := {}
  deriving DecidableEq

/-- Circular throbber settings (`struct FCircularThrobberSettings`). -/
structure FCircularThrobberSettings where
  NumberOfPieces : Int := 6
  Period : ℚ := 0.75
  Radius : ℚ := 64.0
  Image : FSlateBrush := {}
  deriving DecidableEq

/-- Image sequence settings (`struct FImageSequenceSettings`); a texture
pointer is kept as the name of the texture. -/
structure FImageSequenceSettings where
  Images : List String := []
  Scale : FVector2D := ⟨1.0, 1.0⟩
  Interval : ℚ := 0.05
  bPlayReverse : Bool := false
  deriving DecidableEq

/-- Background widget for the widget loading screen
(`struct FBackgroundSettings`). -/
structure FBackgroundSettings where
  Images : List String := []
  ImageStretch : EStretch := EStretch.ScaleToFit
  Padding : FMargin := {}
  BackgroundColor : FLinearColor := FLinearColor.Black
  deriving DecidableEq

/-- Loading widget settings (`struct FLoadingWidgetSettings`). -/
structure FLoadingWidgetSettings where
  LoadingIconType : ELoadingIconType := ELoadingIconType.LIT_CircularThrobber
  LoadingWidgetType : ELoadingWidgetType := ELoadingWidgetType.LWT_Horizontal
  TransformTranslation : FVector2D := ⟨0.0, 0.0⟩
  TransformScale : FVector2D := ⟨1.0, 1.0⟩
  TransformPivot : FVector2D := ⟨0.5, 0.5⟩
  LoadingText : String := ""
  bLoadingTextRightPosition : Bool := true
  bLoadingTextTopPosition : Bool := true
  Appearance : FTextAppearance
  ThrobberSettings : FThrobberSettings := {}
  CircularThrobberSettings : FCircularThrobberSettings := {}
  ImageSequenceSettings : FImageSequenceSettings := {}
  TextAlignment : FWidgetAlignment := {}
  LoadingIconAlignment : FWidgetAlignment := {}
  Space : ℚ := 1.0
  deriving DecidableEq

/-- Tips text settings (`struct FTipSettings`).  `TipWrapAt` has no
initialiser. -/
structure FTipSettings where
  TipText : List String := []
  Appearance : FTextAppearance
  TipWrapAt : ℚ
  deriving DecidableEq

/-- Loading screen settings (`struct FALoadingScreenSettings`).
`PlaybackType` has no initialiser. -/
structure FALoadingScreenSettings where
  MinimumLoadingScreenDisplayTime : ℚ := -1
  bAutoCompleteWhenLoadingCompletes : Bool := true
  bMoviesAreSkippable : Bool := true
  bWaitForManualStop : Bool := false
  PlaybackType : EMoviePlaybackType
  MoviePaths : List String := []
  bShowWidgetOverlay : Bool := true
  Layout : EAsyncLoadingScreenLayout := EAsyncLoadingScreenLayout.ALSL_Classic
  Background : FBackgroundSettings := {}
  LoadingWidget : FLoadingWidgetSettings
  TipWidget : FTipSettings
  deriving DecidableEq

/-- Classic layout settings (`struct FClassicLayoutSettings`). -/
structure FClassicLayoutSettings where
  bIsWidgetAtBottom : Bool := true
  bIsLoadingWidgetAtLeft : Bool := true
  Space : ℚ := 1.0
  TipAlignment : FWidgetAlignment := {}
  BorderHorizontalAlignment : EHorizontalAlignment := EHorizontalAlignment.HAlign_Fill
  BorderPadding : FMargin := {}
  BorderBackground : FSlateBrush := {}
  deriving DecidableEq

/-- Center layout settings (`struct FCenterLayoutSettings`). -/
structure FCenterLayoutSettings where
  bIsTipAtBottom : Bool := true
  TipWidgetVerticalPadding : ℚ := 0.0
  TipAlignment : FWidgetAlignment := {}
  BorderHorizontalAlignment : EHorizontalAlignment := EHorizontalAlignment.HAlign_Fill
  BorderPadding : FMargin := {}
  BorderBackground : FSlateBrush := {}
  deriving DecidableEq

/-- Letterbox layout settings (`struct FLetterboxLayoutSettings`). -/
structure FLetterboxLayoutSettings where
  bIsLoadingWidgetAtTop : Bool := true
  TipAlignment : FWidgetAlignment := {}
  LoadingWidgetAlignment : FWidgetAlignment := {}
  TopBorderHorizontalAlignment : EHorizontalAlignment := EHorizontalAlignment.HAlign_Fill
  BottomBorderHorizontalAlignment : EHorizontalAlignment := EHorizontalAlignment.HAlign_Fill
  TopBorderPadding : FMargin := {}
  BottomBorderPadding : FMargin := {}
  TopBorderBackground : FSlateBrush := {}
  BottomBorderBackground : FSlateBrush := {}
  deriving DecidableEq

/-- Sidebar layout settings (`struct FSidebarLayoutSettings`). -/
structure FSidebarLayoutSettings where
  bIsWidgetAtRight : Bool := true
  bIsLoadingWidgetAtTop : Bool := true
  Space : ℚ := 1.0
  WidgetHorizontalPadding : ℚ := 0.0
  VerticalAlignment : EVerticalAlignment := EVerticalAlignment.VAlign_Center
  LoadingWidgetAlignment : FWidgetAlignment := {}
  TipAlignment : FWidgetAlignment := {}
  BorderVerticalAlignment : EVerticalAlignment := EVerticalAlignment.VAlign_Fill
  BorderPadding : FMargin := {}
  BorderBackground : FSlateBrush := {}
  deriving DecidableEq

/-- Dual sidebar layout settings (`struct FDualSidebarLayoutSettings`). -/
structure FDualSidebarLayoutSettings where
  bIsLoadingWidgetAtRight : Bool := true
  LeftVerticalAlignment : EVerticalAlignment := EVerticalAlignment.VAlign_Center
  RightVerticalAlignment : EVerticalAlignment := EVerticalAlignment.VAlign_Center
  LeftBorderVerticalAlignment : EVerticalAlignment := EVerticalAlignment.VAlign_Fill
  RightBorderVerticalAlignment : EVerticalAlignment := EVerticalAlignment.VAlign_Fill
  LeftBorderPadding : FMargin := {}
  RightBorderPadding : FMargin := {}
  LeftBorderBackground : FSlateBrush := {}
  RightBorderBackground : FSlateBrush := {}
  deriving DecidableEq

/-- Async loading screen settings (`class ULoadingScreenSettings`). -/
structure ULoadingScreenSettings where
  StartupLoadingScreen : FALoadingScreenSettings
  DefaultLoadingScreen : FALoadingScreenSettings
  Classic : FClassicLayoutSettings := {}
  Center : FCenterLayoutSettings := {}
  Letterbox : FLetterboxLayoutSettings := {}
  Sidebar : FSidebarLayoutSettings := {}
  DualSidebar : FDualSidebarLayoutSettings := {}
  deriving DecidableEq

/-! ## Default initialisation -/

/-- Values of the members of `FTextAppearance` that have no initialiser. -/
structure FTextAppearance.Unset where
  ShadowOffset : FVector2D
  ShadowColorAndOpacity : FLinearColor
  Justification : ETextJustify

/-- Values of the members below `FTipSettings` that have no initialiser. -/
structure FTipSettings.Unset where
  Appearance : FTextAppearance.Unset
  TipWrapAt : ℚ

/-- Values of the members below `FALoadingScreenSettings` that have no
initialiser. -/
structure FALoadingScreenSettings.Unset where
  PlaybackType : EMoviePlaybackType
  LoadingWidgetAppearance : FTextAppearance.Unset
  TipWidget : FTipSettings.Unset

/-- Values of the members below `ULoadingScreenSettings` that have no
initialiser. -/
structure ULoadingScreenSettings.Unset where
  StartupLoadingScreen : FALoadingScreenSettings.Unset
  DefaultLoadingScreen : FALoadingScreenSettings.Unset

/-- Default-initialised `FTextAppearance`. -/
def FTextAppearance.init (u : FTextAppearance.Unset) : FTextAppearance :=
  { ShadowOffset := u.ShadowOffset
    ShadowColorAndOpacity := u.ShadowColorAndOpacity
    Justification := u.Justification }

/-- Default-initialised `FLoadingWidgetSettings`. -/
def FLoadingWidgetSettings.init (u : FTextAppearance.Unset) : FLoadingWidgetSettings :=
  { Appearance := FTextAppearance.init u }

/-- Default-initialised `FTipSettings`. -/
def FTipSettings.init (u : FTipSettings.Unset) : FTipSettings :=
  { Appearance := FTextAppearance.init u.Appearance
    TipWrapAt := u.TipWrapAt }

/-- Default-initialised `FALoadingScreenSettings`. -/
def FALoadingScreenSettings.init (u : FALoadingScreenSettings.Unset) :
    FALoadingScreenSettings :=
  { PlaybackType := u.PlaybackType
    LoadingWidget := FLoadingWidgetSettings.init u.LoadingWidgetAppearance
    TipWidget := FTipSettings.init u.TipWidget }

/-- Default-initialised `ULoadingScreenSettings`. -/
def ULoadingScreenSettings.init (u : ULoadingScreenSettings.Unset) :
    ULoadingScreenSettings :=
  { StartupLoadingScreen := FALoadingScreenSettings.init u.StartupLoadingScreen
    DefaultLoadingScreen := FALoadingScreenSettings.init u.DefaultLoadingScreen }

/-! ## Property metadata and clamping -/

/-- Numeric entries of the `meta = (...)` part of a `UPROPERTY`. An entry
that the declaration does not give is `none`. -/
structure PropertyMeta (α : Type) where
  ClampMin : Option α := none
  ClampMax : Option α := none
  UIMin : Option α := none
  UIMax : Option α := none
  deriving DecidableEq

/-- The `meta` of `FThrobberSettings::NumberOfPieces`:
`ClampMin = "1", ClampMax = "25", UIMin = "1", UIMax = "25"`. -/
def FThrobberSettings.NumberOfPieces_meta : PropertyMeta Int :=
  { ClampMin := some 1, ClampMax := some 25, UIMin := some 1, UIMax := some 25 }

/-- The `meta` of `FCircularThrobberSettings::NumberOfPieces`:
`ClampMin = "1", ClampMax = "25", UIMin = "1", UIMax = "25"`. -/
def FCircularThrobberSettings.NumberOfPieces_meta : PropertyMeta Int :=
  { ClampMin := some 1, ClampMax := some 25, UIMin := some 1, UIMax := some 25 }

/-- The `meta` of `FCircularThrobberSettings::Period`:
`ClampMin = "0", UIMin = "0"`. -/
def FCircularThrobberSettings.Period_meta : PropertyMeta ℚ :=
  { ClampMin := some 0, UIMin := some 0 }

/-- Member `FCircularThrobberSettings::Radius` is declared without `meta`. -/
def FCircularThrobberSettings.Radius_meta : PropertyMeta ℚ := {}

/-- The `meta` of `FImageSequenceSettings::Interval`:
`UIMax = 1.00, UIMin = 0.00, ClampMin = "0", ClampMax = "1"`. -/
def FImageSequenceSettings.Interval_meta : PropertyMeta ℚ :=
  { UIMax := some 1.00, UIMin := some 0.00, ClampMin := some 0, ClampMax := some 1 }

/-- Member `FLoadingWidgetSettings::Space` is declared without `meta`. -/
def FLoadingWidgetSettings.Space_meta : PropertyMeta ℚ := {}

/-- Member `FClassicLayoutSettings::Space` is declared without `meta`. -/
def FClassicLayoutSettings.Space_meta : PropertyMeta ℚ := {}

/-- Member `FSidebarLayoutSettings::Space` is declared without `meta`. -/
def FSidebarLayoutSettings.Space_meta : PropertyMeta ℚ := {}

/-- A value respects the clamp range of a member: it is not below `ClampMin`
and not above `ClampMax`, for the bounds that are declared. -/
def PropertyMeta.InRange {α : Type} [LinearOrder α] (m : PropertyMeta α) (v : α) : Prop :=
  (∀ lo, m.ClampMin = some lo → lo ≤ v) ∧ (∀ hi, m.ClampMax = some hi → v ≤ hi)

/-- Decidable form of `PropertyMeta.InRange`. -/
def PropertyMeta.inRange {α : Type} [LinearOrder α] (m : PropertyMeta α) (v : α) : Bool :=
  (match m.ClampMin with
    | some lo => decide (lo ≤ v)
    | none => true) &&
  (match m.ClampMax with
    | some hi => decide (v ≤ hi)
    | none => true)

/-- Clamp of a value to the clamp range of a member: a value below a declared
`ClampMin` becomes `ClampMin`, a value above a declared `ClampMax` becomes
`ClampMax`, and a bound that is not declared does not restrict. -/
def PropertyMeta.clamp {α : Type} [LinearOrder α] (m : PropertyMeta α) (v : α) : α :=
  let v1 := match m.ClampMin with
    | some lo => max lo v
    | none => v
  match m.ClampMax with
    | some hi => min hi v1
    | none => v1

/-- Linear throbber settings with every numeric member clamped to its
declared range. -/
def FThrobberSettings.clamped (s : FThrobberSettings) : FThrobberSettings :=
  { s with NumberOfPieces := FThrobberSettings.NumberOfPieces_meta.clamp s.NumberOfPieces }

/-- Circular throbber settings with every numeric member clamped to its
declared range. -/
def FCircularThrobberSettings.clamped (s : FCircularThrobberSettings) :
    FCircularThrobberSettings :=
  { s with
    NumberOfPieces := FCircularThrobberSettings.NumberOfPieces_meta.clamp s.NumberOfPieces
    Period := FCircularThrobberSettings.Period_meta.clamp s.Period
    Radius := FCircularThrobberSettings.Radius_meta.clamp s.Radius }

/-- Image sequence settings with every numeric member clamped to its declared
range. -/
def FImageSequenceSettings.clamped (s : FImageSequenceSettings) : FImageSequenceSettings :=
  { s with Interval := FImageSequenceSettings.Interval_meta.clamp s.Interval }

/-- Loading widget settings with every numeric member, also of the three
indicator records, clamped to its declared range. -/
def FLoadingWidgetSettings.clamped (s : FLoadingWidgetSettings) : FLoadingWidgetSettings :=
  { s with
    ThrobberSettings := s.ThrobberSettings.clamped
    CircularThrobberSettings := s.CircularThrobberSettings.clamped
    ImageSequenceSettings := s.ImageSequenceSettings.clamped
    Space := FLoadingWidgetSettings.Space_meta.clamp s.Space }

/-- Per-screen record with the numeric members of its loading widget clamped
to their declared ranges. -/
def FALoadingScreenSettings.clamped (s : FALoadingScreenSettings) : FALoadingScreenSettings :=
  { s with LoadingWidget := s.LoadingWidget.clamped }

/-- Classic layout settings with `Space` clamped to its declared range. -/
def FClassicLayoutSettings.clamped (s : FClassicLayoutSettings) : FClassicLayoutSettings :=
  { s with Space := FClassicLayoutSettings.Space_meta.clamp s.Space }

/-- Sidebar layout settings with `Space` clamped to its declared range. -/
def FSidebarLayoutSettings.clamped (s : FSidebarLayoutSettings) : FSidebarLayoutSettings :=
  { s with Space := FSidebarLayoutSettings.Space_meta.clamp s.Space }

/-- The settings tree with every clamped numeric member of both screens and
of the layout records clamped to its declared range. -/
def ULoadingScreenSettings.clamped (r : ULoadingScreenSettings) : ULoadingScreenSettings :=
  { r with
    StartupLoadingScreen := r.StartupLoadingScreen.clamped
    DefaultLoadingScreen := r.DefaultLoadingScreen.clamped
    Classic := r.Classic.clamped
    Sidebar := r.Sidebar.clamped }

/-- Modelled from the spec: `load() → RootSettings` of the settings model,
which "reads persisted configuration and produces a fully-populated, clamped
tree"; the loader is not part of the header.  The persisted tree is given with
the members that the store does not hold already at their defaults, and
loading clamps every numeric member to its declared range. -/
def load (persisted : ULoadingScreenSettings) : ULoadingScreenSettings :=
  persisted.clamped

/-- What it means for a loaded member to be the clamped persisted value: it is
the clamp of the persisted value, it lies in the range, a persisted value in
the range is kept, and a persisted value beyond a declared bound becomes that
bound. -/
def PropertyMeta.ClampsTo {α : Type} [LinearOrder α] (m : PropertyMeta α)
    (persisted loaded : α) : Prop :=
  loaded = m.clamp persisted ∧ m.InRange loaded ∧
  (m.InRange persisted → loaded = persisted) ∧
  (∀ lo, m.ClampMin = some lo → persisted < lo → loaded = lo) ∧
  (∀ hi, m.ClampMax = some hi → hi < persisted → loaded = hi)

/-- The clamped numeric members of a loaded per-screen record are the clamped
members of the persisted one: both piece counts, the period, the radius, the
interval and the space of the loading widget. -/
def FALoadingScreenSettings.ClampedFrom (persisted loaded : FALoadingScreenSettings) : Prop :=
  FThrobberSettings.NumberOfPieces_meta.ClampsTo
    persisted.LoadingWidget.ThrobberSettings.NumberOfPieces
    loaded.LoadingWidget.ThrobberSettings.NumberOfPieces ∧
  FCircularThrobberSettings.NumberOfPieces_meta.ClampsTo
    persisted.LoadingWidget.CircularThrobberSettings.NumberOfPieces
    loaded.LoadingWidget.CircularThrobberSettings.NumberOfPieces ∧
  FCircularThrobberSettings.Period_meta.ClampsTo
    persisted.LoadingWidget.CircularThrobberSettings.Period
    loaded.LoadingWidget.CircularThrobberSettings.Period ∧
  FCircularThrobberSettings.Radius_meta.ClampsTo
    persisted.LoadingWidget.CircularThrobberSettings.Radius
    loaded.LoadingWidget.CircularThrobberSettings.Radius ∧
  FImageSequenceSettings.Interval_meta.ClampsTo
    persisted.LoadingWidget.ImageSequenceSettings.Interval
    loaded.LoadingWidget.ImageSequenceSettings.Interval ∧
  FLoadingWidgetSettings.Space_meta.ClampsTo
    persisted.LoadingWidget.Space loaded.LoadingWidget.Space

/-! ## Selection of the active records -/

/-- The five layout records of the root settings as one tagged value: the
record a layout tag stands for. -/
inductive FLayoutSettings
  | Classic (s : FClassicLayoutSettings)
  | Center (s : FCenterLayoutSettings)
  | Letterbox (s : FLetterboxLayoutSettings)
  | Sidebar (s : FSidebarLayoutSettings)
  | DualSidebar (s : FDualSidebarLayoutSettings)
  deriving DecidableEq

/-- The layout a layout record belongs to. -/
def FLayoutSettings.tag : FLayoutSettings → EAsyncLoadingScreenLayout
  | .Classic _ => .ALSL_Classic
  | .Center _ => .ALSL_Center
  | .Letterbox _ => .ALSL_Letterbox
  | .Sidebar _ => .ALSL_Sidebar
  | .DualSidebar _ => .ALSL_DualSidebar

/-- The layout record of the root settings that a layout tag selects: the
member whose comment in `ULoadingScreenSettings` repeats the comment of the
enumerator. -/
def ULoadingScreenSettings.layoutSettings (r : ULoadingScreenSettings) :
    EAsyncLoadingScreenLayout → FLayoutSettings
  | .ALSL_Classic => .Classic r.Classic
  | .ALSL_Center => .Center r.Center
  | .ALSL_Letterbox => .Letterbox r.Letterbox
  | .ALSL_Sidebar => .Sidebar r.Sidebar
  | .ALSL_DualSidebar => .DualSidebar r.DualSidebar

/-- Identifier of an enumerator of `EAsyncLoadingScreenLayout`. -/
def EAsyncLoadingScreenLayout.identifier : EAsyncLoadingScreenLayout → String
  | .ALSL_Classic => "ALSL_Classic"
  | .ALSL_Center => "ALSL_Center"
  | .ALSL_Letterbox => "ALSL_Letterbox"
  | .ALSL_Sidebar => "ALSL_Sidebar"
  | .ALSL_DualSidebar => "ALSL_DualSidebar"

/-- A member declaration: the name of the member and the name of its type. -/
structure MemberDecl where
  memberName : String
  typeName : String
  deriving DecidableEq, Repr

/-- The members of `ULoadingScreenSettings` declared with
`Category = "Layout"`, in declaration order. -/
def ULoadingScreenSettings.layoutMembers : List MemberDecl :=
  [ ⟨"Classic", "FClassicLayoutSettings"⟩,
    ⟨"Center", "FCenterLayoutSettings"⟩,
    ⟨"Letterbox", "FLetterboxLayoutSettings"⟩,
    ⟨"Sidebar", "FSidebarLayoutSettings"⟩,
    ⟨"DualSidebar", "FDualSidebarLayoutSettings"⟩ ]

/-- The layout member of the same name as a tag: the member `X` for the
enumerator `ALSL_X`. -/
def EAsyncLoadingScreenLayout.member (t : EAsyncLoadingScreenLayout) : Option MemberDecl :=
  ULoadingScreenSettings.layoutMembers.find? fun m => "ALSL_" ++ m.memberName == t.identifier

/-- The loading indicator that a loading widget shows: the one record that
`LoadingIconType` selects, under its tag. -/
inductive FLoadingIcon
  | Throbber (s : FThrobberSettings)
  | CircularThrobber (s : FCircularThrobberSettings)
  | ImageSequence (s : FImageSequenceSettings)
  deriving DecidableEq

/-- The icon type an indicator belongs to. -/
def FLoadingIcon.iconType : FLoadingIcon → ELoadingIconType
  | .Throbber _ => .LIT_Throbber
  | .CircularThrobber _ => .LIT_CircularThrobber
  | .ImageSequence _ => .LIT_ImageSequence

/-- The active indicator of a loading widget.  The header documents the
selection on each of the three records: the record is to be ignored unless
the icon type of its name (Throbber, Circular Throbber, Image Sequence) is
chosen. -/
def FLoadingWidgetSettings.activeIcon (w : FLoadingWidgetSettings) : FLoadingIcon :=
  match w.LoadingIconType with
  | .LIT_Throbber => .Throbber w.ThrobberSettings
  | .LIT_CircularThrobber => .CircularThrobber w.CircularThrobberSettings
  | .LIT_ImageSequence => .ImageSequence w.ImageSequenceSettings

/-- Two loading widgets differ at most in the records that the icon type does
not select: every other member is the same, and so is the selected record. -/
def FLoadingWidgetSettings.SameButUnselected (w w2 : FLoadingWidgetSettings) : Prop :=
  w2.LoadingIconType = w.LoadingIconType ∧
  w2.LoadingWidgetType = w.LoadingWidgetType ∧
  w2.TransformTranslation = w.TransformTranslation ∧
  w2.TransformScale = w.TransformScale ∧
  w2.TransformPivot = w.TransformPivot ∧
  w2.LoadingText = w.LoadingText ∧
  w2.bLoadingTextRightPosition = w.bLoadingTextRightPosition ∧
  w2.bLoadingTextTopPosition = w.bLoadingTextTopPosition ∧
  w2.Appearance = w.Appearance ∧
  w2.TextAlignment = w.TextAlignment ∧
  w2.LoadingIconAlignment = w.LoadingIconAlignment ∧
  w2.Space = w.Space ∧
  (w.LoadingIconType = .LIT_Throbber → w2.ThrobberSettings = w.ThrobberSettings) ∧
  (w.LoadingIconType = .LIT_CircularThrobber →
    w2.CircularThrobberSettings = w.CircularThrobberSettings) ∧
  (w.LoadingIconType = .LIT_ImageSequence →
    w2.ImageSequenceSettings = w.ImageSequenceSettings)

/-! ## Widget tree, composite loading widget and layout composer

The header declares settings only; the code that builds widgets from them is
not part of it.  The definitions of this section follow the design
description of the composite loading widget and of the layout composer. -/

/-- Modelled from the spec: the screen edge at which a layout docks a border
bar (top or bottom for a horizontal bar, left or right for a vertical one; the
widget classes are not part of the header). -/
inductive EDock
  | Top
  | Bottom
  | Left
  | Right
  deriving DecidableEq, Repr

/-- Modelled from the spec: the widget tree that the layout composer returns
(the widget classes are not part of the header).  `Null` is the empty tree;
`Background`, `Tip` and `Indicator` are the background, tip and
loading-indicator nodes; `Label` is the loading text; `Spacer` is the empty
space between two elements; `HBox` and `VBox` lay their children out in order,
left to right and top to bottom; `Aligned` places a child in its slot;
`Border` is a docked border bar with padding and background brush; `Padded`
keeps a margin around its child; `Overlay` stacks its children, first child
behind. -/
inductive Widget
  | Null
  | Background (image : Option String) (stretch : EStretch) (padding : FMargin)
      (color : FLinearColor)
  | Indicator (icon : FLoadingIcon) (translation scale pivot : FVector2D)
  | Label (text : String) (appearance : FTextAppearance)
  | Tip (text : Option String) (appearance : FTextAppearance) (wrapAt : ℚ)
  | Spacer (size : ℚ)
  | HBox (children : List Widget)
  | VBox (children : List Widget)
  | Aligned (alignment : FWidgetAlignment) (child : Widget)
  | Border (dock : EDock) (horizontal : Option EHorizontalAlignment)
      (vertical : Option EVerticalAlignment) (padding : FMargin) (brush : FSlateBrush)
      (child : Widget)
  | Padded (margin : FMargin) (child : Widget)
  | Overlay (children : List Widget)

/-- Kind of a content node of the widget tree. -/
inductive ENodeKind
  | Background
  | Tip
  | Indicator
  | Label
  deriving DecidableEq, Repr

mutual

/-- Number of nodes of a kind in a widget tree. -/
def Widget.count (k : ENodeKind) : Widget → Nat
  | .Null => 0
  | .Background _ _ _ _ => if k = ENodeKind.Background then 1 else 0
  | .Indicator _ _ _ _ => if k = ENodeKind.Indicator then 1 else 0
  | .Label _ _ => if k = ENodeKind.Label then 1 else 0
  | .Tip _ _ _ => if k = ENodeKind.Tip then 1 else 0
  | .Spacer _ => 0
  | .HBox cs => Widget.countList k cs
  | .VBox cs => Widget.countList k cs
  | .Aligned _ c => c.count k
  | .Border _ _ _ _ _ c => c.count k
  | .Padded _ c => c.count k
  | .Overlay cs => Widget.countList k cs

/-- Number of nodes of a kind in a list of widget trees. -/
def Widget.countList (k : ENodeKind) : List Widget → Nat
  | [] => 0
  | c :: cs => c.count k + Widget.countList k cs

end

/-- Modelled from the spec: the session-scoped random choice of one element of
a configured list, with the random draw given as a number; an empty list gives
no element ("render nothing for that element"). -/
def pickOne (draw : Nat) (xs : List String) : Option String :=
  xs.get? (draw % xs.length)

/-- Modelled from the spec: the composite loading widget (section 4.3 of the
design description).  With horizontal orientation the children are
[indicator, spacing, label] when the label is on the right and the reverse
otherwise; with vertical orientation they are [indicator, spacing, label] top
to bottom when the label is not on top and the reverse otherwise; the render
transform is on the indicator only; no spacing is inserted when the label
text is empty. -/
def loadingWidget (w : FLoadingWidgetSettings) : Widget :=
  let indicator := Widget.Aligned w.LoadingIconAlignment
    (Widget.Indicator w.activeIcon w.TransformTranslation w.TransformScale w.TransformPivot)
  let label := Widget.Aligned w.TextAlignment (Widget.Label w.LoadingText w.Appearance)
  let spacing := if w.LoadingText = "" then [] else [Widget.Spacer w.Space]
  let children := [indicator] ++ spacing ++ [label]
  match w.LoadingWidgetType with
  | .LWT_Horizontal =>
    Widget.HBox (if w.bLoadingTextRightPosition then children else children.reverse)
  | .LWT_Vertical =>
    Widget.VBox (if w.bLoadingTextTopPosition then children.reverse else children)

/-- Modelled from the spec: the tip text widget, one tip of the configured
list drawn per session, with its own appearance and wrap width. -/
def tipWidget (t : FTipSettings) (draw : Nat) : Widget :=
  Widget.Tip (pickOne draw t.TipText) t.Appearance t.TipWrapAt

/-- Modelled from the spec: the background, one image of the configured list
drawn per session, padded and stretched per settings; with an empty list only
the fallback colour is drawn. -/
def backgroundWidget (b : FBackgroundSettings) (draw : Nat) : Widget :=
  Widget.Background (pickOne draw b.Images) b.ImageStretch b.Padding b.BackgroundColor

/-- Modelled from the spec: the Classic layout, a single horizontal border bar
docked top or bottom holding [loading widget, spacing, tip] or the reverse. -/
def classicLayout (l : FClassicLayoutSettings) (loading tip : Widget) : Widget :=
  let children := [loading, Widget.Spacer l.Space, Widget.Aligned l.TipAlignment tip]
  Widget.Border (if l.bIsWidgetAtBottom then EDock.Bottom else EDock.Top)
    (some l.BorderHorizontalAlignment) none l.BorderPadding l.BorderBackground
    (Widget.HBox (if l.bIsLoadingWidgetAtLeft then children else children.reverse))

/-- Modelled from the spec: the Center layout, the loading widget centered over
the background and the tip as a separate band at top or bottom with its own
vertical padding. -/
def centerLayout (l : FCenterLayoutSettings) (loading tip : Widget) : Widget :=
  Widget.Overlay
    [ Widget.Aligned {} loading,
      Widget.Padded
        (if l.bIsTipAtBottom then { Bottom := l.TipWidgetVerticalPadding }
          else { Top := l.TipWidgetVerticalPadding })
        (Widget.Border (if l.bIsTipAtBottom then EDock.Bottom else EDock.Top)
          (some l.BorderHorizontalAlignment) none l.BorderPadding l.BorderBackground
          (Widget.Aligned l.TipAlignment tip)) ]

/-- Modelled from the spec: the Letterbox layout, a top and a bottom border
with independent padding, alignment and brush; the loading widget is in the
top border if `bIsLoadingWidgetAtTop`, the tip in the other, and vice versa. -/
def letterboxLayout (l : FLetterboxLayoutSettings) (loading tip : Widget) : Widget :=
  let loadingSlot := Widget.Aligned l.LoadingWidgetAlignment loading
  let tipSlot := Widget.Aligned l.TipAlignment tip
  Widget.Overlay
    [ Widget.Border EDock.Top (some l.TopBorderHorizontalAlignment) none l.TopBorderPadding
        l.TopBorderBackground (if l.bIsLoadingWidgetAtTop then loadingSlot else tipSlot),
      Widget.Border EDock.Bottom (some l.BottomBorderHorizontalAlignment) none
        l.BottomBorderPadding l.BottomBorderBackground
        (if l.bIsLoadingWidgetAtTop then tipSlot else loadingSlot) ]

/-- Modelled from the spec: the Sidebar layout, one vertical border docked left
or right holding a vertical stack of [loading widget, spacing, tip], flipped
when the loading widget is not at top, with horizontal padding and inner
vertical alignment. -/
def sidebarLayout (l : FSidebarLayoutSettings) (loading tip : Widget) : Widget :=
  let children :=
    [Widget.Aligned l.LoadingWidgetAlignment loading, Widget.Spacer l.Space,
      Widget.Aligned l.TipAlignment tip]
  Widget.Border (if l.bIsWidgetAtRight then EDock.Right else EDock.Left)
    none (some l.BorderVerticalAlignment) l.BorderPadding l.BorderBackground
    (Widget.Padded
      (if l.bIsWidgetAtRight then { Right := l.WidgetHorizontalPadding }
        else { Left := l.WidgetHorizontalPadding })
      (Widget.Aligned ⟨EHorizontalAlignment.HAlign_Fill, l.VerticalAlignment⟩
        (Widget.VBox (if l.bIsLoadingWidgetAtTop then children else children.reverse))))

/-- Modelled from the spec: the Dual Sidebar layout, a left and a right
vertical border with independent geometry; the loading widget is in the right
border if `bIsLoadingWidgetAtRight`, the tip in the other. -/
def dualSidebarLayout (l : FDualSidebarLayoutSettings) (loading tip : Widget) : Widget :=
  Widget.Overlay
    [ Widget.Border EDock.Left none (some l.LeftBorderVerticalAlignment) l.LeftBorderPadding
        l.LeftBorderBackground
        (Widget.Aligned ⟨EHorizontalAlignment.HAlign_Fill, l.LeftVerticalAlignment⟩
          (if l.bIsLoadingWidgetAtRight then tip else loading)),
      Widget.Border EDock.Right none (some l.RightBorderVerticalAlignment) l.RightBorderPadding
        l.RightBorderBackground
        (Widget.Aligned ⟨EHorizontalAlignment.HAlign_Fill, l.RightVerticalAlignment⟩
          (if l.bIsLoadingWidgetAtRight then loading else tip)) ]

/-- Modelled from the spec: the random draws of one session, one for the
background image and one for the tip. -/
structure SessionDraw where
  background : Nat
  tip : Nat
  deriving DecidableEq, Repr

/-- Modelled from the spec: the layout composer (section 4.4 of the design
description).  If `bShowWidgetOverlay` is false it returns the empty tree;
otherwise it puts the background behind the one layout that the `Layout` tag
of the screen selects among the five layout records. -/
def composeLoadingScreen (root : ULoadingScreenSettings) (s : FALoadingScreenSettings)
    (draw : SessionDraw) : Widget :=
  if s.bShowWidgetOverlay then
    let loading := loadingWidget s.LoadingWidget
    let tip := tipWidget s.TipWidget draw.tip
    Widget.Overlay
      [ backgroundWidget s.Background draw.background,
        match root.layoutSettings s.Layout with
        | .Classic l => classicLayout l loading tip
        | .Center l => centerLayout l loading tip
        | .Letterbox l => letterboxLayout l loading tip
        | .Sidebar l => sidebarLayout l loading tip
        | .DualSidebar l => dualSidebarLayout l loading tip ]
  else
    Widget.Null

/-- Direct children of a box or overlay node, in layout order; the other
nodes have none. -/
def Widget.children : Widget → List Widget
  | .HBox cs => cs
  | .VBox cs => cs
  | .Overlay cs => cs
  | _ => []

/-- Size of a spacer node; `none` for every other node. -/
def Widget.spacerSize : Widget → Option ℚ
  | .Spacer size => some size
  | _ => none

/-- Modelled from the spec: the indicator child of the composite loading
widget, the active indicator under the render transform, in its slot. -/
def loadingWidgetIndicator (w : FLoadingWidgetSettings) : Widget :=
  Widget.Aligned w.LoadingIconAlignment
    (Widget.Indicator w.activeIcon w.TransformTranslation w.TransformScale w.TransformPivot)

/-- Modelled from the spec: the label child of the composite loading widget,
the loading text with its appearance, in its slot. -/
def loadingWidgetLabel (w : FLoadingWidgetSettings) : Widget :=
  Widget.Aligned w.TextAlignment (Widget.Label w.LoadingText w.Appearance)

/-- Loading widget settings with `bLoadingTextRightPosition` toggled and every
other member kept. -/
def FLoadingWidgetSettings.toggleTextRightPosition (w : FLoadingWidgetSettings) :
    FLoadingWidgetSettings :=
  { w with bLoadingTextRightPosition := !w.bLoadingTextRightPosition }

/-! ## Lifecycle controller

The controller is not part of the header either; the definitions of this
section follow section 4.5 and section 5 of the design description. -/

/-- Modelled from the spec: the states of one loading-screen session,
`Idle → Showing → Displaying → Dismissing → Idle`. -/
inductive EPhase
  | Idle
  | Showing
  | Displaying
  | Dismissing
  deriving DecidableEq, Repr

/-- Modelled from the spec: the signals the controller receives from the host:
the "pre-load map" event (with the random draws of the session it starts), the
first presented frame, "load complete", a click of the user, "manual stop",
the start of the last movie, the per-frame tick with its delta time in
seconds, and the forced dismissal. -/
inductive HostSignal
  | PreLoadMap (draw : SessionDraw)
  | FirstFrame
  | LoadComplete
  | UserClicked
  | ManualStop
  | LastMovieStarted
  | Tick (deltaTime : ℚ)
  | ForceDismiss

/-- Modelled from the spec: the state of the lifecycle controller.  `settings`
is the snapshot of the per-screen record read at attach time, `tree` the
widget tree of the session, `elapsed` the time since the recorded start
timestamp, `loadComplete`, `userClicked` and `manualStop` the latched host
signals, and `startupShown` tells whether the first activation after process
start has happened. -/
structure Controller where
  root : ULoadingScreenSettings
  phase : EPhase
  settings : FALoadingScreenSettings
  tree : Widget
  elapsed : ℚ
  loadComplete : Bool
  userClicked : Bool
  manualStop : Bool
  startupShown : Bool

/-- Modelled from the spec: the controller at process start, idle, with no
session yet. -/
def Controller.start (root : ULoadingScreenSettings) : Controller :=
  { root := root
    phase := EPhase.Idle
    settings := root.StartupLoadingScreen
    tree := Widget.Null
    elapsed := 0
    loadComplete := false
    userClicked := false
    manualStop := false
    startupShown := false }

/-- Modelled from the spec: the minimum-display-time gate,
"elapsed ≥ MinimumLoadingScreenDisplayTime (skipped if sentinel −1)". -/
def minimumDisplayTimeReached (s : FALoadingScreenSettings) (elapsed : ℚ) : Bool :=
  s.MinimumLoadingScreenDisplayTime == -1 ||
    decide (s.MinimumLoadingScreenDisplayTime ≤ elapsed)

/-- Modelled from the spec: the dismissal policy, "either
bAutoCompleteWhenLoadingCompletes is true, or the user has clicked and
bMoviesAreSkippable is true, or the host has called manual stop and
bWaitForManualStop is true". -/
def Controller.dismissalPolicy (c : Controller) : Bool :=
  c.settings.bAutoCompleteWhenLoadingCompletes ||
    (c.userClicked && c.settings.bMoviesAreSkippable) ||
    (c.manualStop && c.settings.bWaitForManualStop)

/-- Modelled from the spec: the condition of `Displaying → Dismissing`, the
host has signalled "load complete" and the gate and the policy hold. -/
def Controller.mayDismiss (c : Controller) : Bool :=
  c.loadComplete && minimumDisplayTimeReached c.settings c.elapsed && c.dismissalPolicy

/-- Modelled from the spec: evaluation of `Displaying → Dismissing`, done when
"load complete" is signalled and again on each tick until the gate opens. -/
def Controller.evaluate (c : Controller) : Controller :=
  if c.phase = EPhase.Displaying ∧ c.mayDismiss = true then
    { c with phase := EPhase.Dismissing }
  else c

/-- Modelled from the spec: the tear-down of a session, the overlay is
detached and the widget tree released, back to `Idle`. -/
def Controller.release (c : Controller) : Controller :=
  { c with phase := EPhase.Idle, tree := Widget.Null }

/-- Modelled from the spec: one step of the lifecycle controller.

* `PreLoadMap` in `Idle` starts a session: the startup settings for the first
  activation and the default settings thereafter, the composed widget tree, a
  fresh start timestamp and no latched signal.
* `FirstFrame` takes `Showing` to `Displaying`.
* `LoadComplete`, `UserClicked` and `ManualStop` are latched during a session;
  `LoadComplete` also evaluates the dismissal.
* `LastMovieStarted` with playback mode loop-last forces
  `bAutoCompleteWhenLoadingCompletes` to true for the rest of the session.
* `Tick` advances the elapsed time of a session; in `Displaying` it evaluates
  the dismissal again, in `Dismissing` it releases the session (at most one
  transition per tick).
* `ForceDismiss` tears the session down and returns to `Idle`. -/
def Controller.step (c : Controller) : HostSignal → Controller
  | .PreLoadMap draw =>
    if c.phase = EPhase.Idle then
      let s := if c.startupShown then c.root.DefaultLoadingScreen
        else c.root.StartupLoadingScreen
      { c with
        phase := EPhase.Showing
        settings := s
        tree := composeLoadingScreen c.root s draw
        elapsed := 0
        loadComplete := false
        userClicked := false
        manualStop := false
        startupShown := true }
    else c
  | .FirstFrame =>
    if c.phase = EPhase.Showing then { c with phase := EPhase.Displaying } else c
  | .LoadComplete =>
    if c.phase = EPhase.Idle then c
    else Controller.evaluate { c with loadComplete := true }
  | .UserClicked =>
    if c.phase = EPhase.Idle then c else { c with userClicked := true }
  | .ManualStop =>
    if c.phase = EPhase.Idle then c else { c with manualStop := true }
  | .LastMovieStarted =>
    if c.phase ≠ EPhase.Idle ∧ c.settings.PlaybackType = EMoviePlaybackType.MT_LoopLast then
      { c with settings := { c.settings with bAutoCompleteWhenLoadingCompletes := true } }
    else c
  | .Tick dt =>
    match c.phase with
    | .Idle => c
    | .Showing => { c with elapsed := c.elapsed + dt }
    | .Displaying => Controller.evaluate { c with elapsed := c.elapsed + dt }
    | .Dismissing => c.release
  | .ForceDismiss => c.release

/-- Modelled from the spec: the controller after a sequence of host signals. -/
def Controller.run (c : Controller) (signals : List HostSignal) : Controller :=
  signals.foldl Controller.step c

/-! ## Concrete inputs -/

/-- Sample values for the members without initialiser: zero shadow offset,
black shadow, left justification, wrap width 1000, play-once playback. -/
def sampleUnset : ULoadingScreenSettings.Unset :=
  { StartupLoadingScreen :=
      { PlaybackType := EMoviePlaybackType.MT_Normal
        LoadingWidgetAppearance := ⟨⟨0, 0⟩, FLinearColor.Black, ETextJustify.Left⟩
        TipWidget := ⟨⟨⟨0, 0⟩, FLinearColor.Black, ETextJustify.Left⟩, 1000⟩ }
    DefaultLoadingScreen :=
      { PlaybackType := EMoviePlaybackType.MT_Normal
        LoadingWidgetAppearance := ⟨⟨0, 0⟩, FLinearColor.Black, ETextJustify.Left⟩
        TipWidget := ⟨⟨⟨0, 0⟩, FLinearColor.Black, ETextJustify.Left⟩, 1000⟩ } }

/-- Sample root settings: the default-initialised tree with the minimum display
time of the startup screen set to `T`. -/
def sampleRoot (T : ℚ) : ULoadingScreenSettings :=
  { ULoadingScreenSettings.init sampleUnset with
    StartupLoadingScreen :=
      { FALoadingScreenSettings.init sampleUnset.StartupLoadingScreen with
        MinimumLoadingScreenDisplayTime := T } }

/-- Sample per-screen record that only plays a movie: sidebar layout, two
tips, one background image, a loading text, and no widget overlay. -/
def sampleMovieOnlyScreen : FALoadingScreenSettings :=
  { FALoadingScreenSettings.init sampleUnset.DefaultLoadingScreen with
    bShowWidgetOverlay := false
    MoviePaths := ["intro"]
    Layout := EAsyncLoadingScreenLayout.ALSL_Sidebar
    Background := { Images := ["/Game/UI/Background"] }
    LoadingWidget :=
      { FLoadingWidgetSettings.init sampleUnset.DefaultLoadingScreen.LoadingWidgetAppearance with
        LoadingText := "LOADING" }
    TipWidget :=
      { FTipSettings.init sampleUnset.DefaultLoadingScreen.TipWidget with
        TipText := ["A", "B"] } }

/-- Sample loading widget: the default-initialised widget with the loading
text "LOADING" and space 8; its orientation is horizontal and its text is on
the right. -/
def sampleLoadingWidget : FLoadingWidgetSettings :=
  { FLoadingWidgetSettings.init sampleUnset.DefaultLoadingScreen.LoadingWidgetAppearance with
    LoadingText := "LOADING"
    Space := 8 }

/-- Sample root settings for the loop-last playback mode: the default-initialised
tree whose startup screen loops the last of two movies and is configured not
to auto-complete. -/
def sampleLoopLastRoot : ULoadingScreenSettings :=
  { ULoadingScreenSettings.init sampleUnset with
    StartupLoadingScreen :=
      { FALoadingScreenSettings.init sampleUnset.StartupLoadingScreen with
        bAutoCompleteWhenLoadingCompletes := false
        bMoviesAreSkippable := false
        PlaybackType := EMoviePlaybackType.MT_LoopLast
        MoviePaths := ["logo", "loop"] } }

/-! ## Theorems -/

/-- C1: the default-initialised loading-indicator records carry the documented
defaults: the linear throbber has 3 pieces, the circular throbber has 6
pieces, period 3/4 s and radius 64, and the image sequence has interval
1/20 s. -/
theorem C1_indicator_defaults :
    ({} : FThrobberSettings).NumberOfPieces = 3 ∧
    ({} : FCircularThrobberSettings).NumberOfPieces = 6 ∧
    ({} : FCircularThrobberSettings).Period = 3 / 4 ∧
    ({} : FCircularThrobberSettings).Radius = 64 ∧
    ({} : FImageSequenceSettings).Interval = 1 / 20 := by
  refine ⟨rfl, rfl, ?_, ?_, ?_⟩
  · show (0.75 : ℚ) = 3 / 4
    norm_num
  · show (64.0 : ℚ) = 64
    norm_num
  · show (0.05 : ℚ) = 1 / 20
    norm_num

/-- C2: a default-initialised per-screen record has minimum display time -1,
auto-complete true, skippable true and layout Classic, whatever the members
without initialiser hold; the startup and the default screen of the
default-initialised root settings are such records, so both carry these
values. -/
theorem C2_screen_defaults (u : FALoadingScreenSettings.Unset)
    (r : ULoadingScreenSettings.Unset) :
    ((FALoadingScreenSettings.init u).MinimumLoadingScreenDisplayTime = -1 ∧
      (FALoadingScreenSettings.init u).bAutoCompleteWhenLoadingCompletes = true ∧
      (FALoadingScreenSettings.init u).bMoviesAreSkippable = true ∧
      (FALoadingScreenSettings.init u).Layout = EAsyncLoadingScreenLayout.ALSL_Classic) ∧
    ((ULoadingScreenSettings.init r).StartupLoadingScreen =
        FALoadingScreenSettings.init r.StartupLoadingScreen ∧
      (ULoadingScreenSettings.init r).DefaultLoadingScreen =
        FALoadingScreenSettings.init r.DefaultLoadingScreen) ∧
    ((ULoadingScreenSettings.init r).StartupLoadingScreen.MinimumLoadingScreenDisplayTime = -1 ∧
      (ULoadingScreenSettings.init r).StartupLoadingScreen.bAutoCompleteWhenLoadingCompletes
        = true ∧
      (ULoadingScreenSettings.init r).StartupLoadingScreen.bMoviesAreSkippable = true ∧
      (ULoadingScreenSettings.init r).StartupLoadingScreen.Layout =
        EAsyncLoadingScreenLayout.ALSL_Classic) ∧
    ((ULoadingScreenSettings.init r).DefaultLoadingScreen.MinimumLoadingScreenDisplayTime = -1 ∧
      (ULoadingScreenSettings.init r).DefaultLoadingScreen.bAutoCompleteWhenLoadingCompletes
        = true ∧
      (ULoadingScreenSettings.init r).DefaultLoadingScreen.bMoviesAreSkippable = true ∧
      (ULoadingScreenSettings.init r).DefaultLoadingScreen.Layout =
        EAsyncLoadingScreenLayout.ALSL_Classic) :=
  ⟨⟨rfl, rfl, rfl, rfl⟩, ⟨rfl, rfl⟩, ⟨rfl, rfl, rfl, rfl⟩, ⟨rfl, rfl, rfl, rfl⟩⟩

/-- C3: every widget-alignment member defaults to center/center: a
default-initialised `FWidgetAlignment` is (HAlign_Center, VAlign_Center), and
so are `TextAlignment` and `LoadingIconAlignment` of a default-initialised
loading widget and every `TipAlignment` and `LoadingWidgetAlignment` of the
default-initialised Classic, Center, Letterbox and Sidebar records. -/
theorem C3_alignment_defaults (u : FTextAppearance.Unset) :
    ({} : FWidgetAlignment) =
      ⟨EHorizontalAlignment.HAlign_Center, EVerticalAlignment.VAlign_Center⟩ ∧
    (FLoadingWidgetSettings.init u).TextAlignment =
      ⟨EHorizontalAlignment.HAlign_Center, EVerticalAlignment.VAlign_Center⟩ ∧
    (FLoadingWidgetSettings.init u).LoadingIconAlignment =
      ⟨EHorizontalAlignment.HAlign_Center, EVerticalAlignment.VAlign_Center⟩ ∧
    ({} : FClassicLayoutSettings).TipAlignment =
      ⟨EHorizontalAlignment.HAlign_Center, EVerticalAlignment.VAlign_Center⟩ ∧
    ({} : FCenterLayoutSettings).TipAlignment =
      ⟨EHorizontalAlignment.HAlign_Center, EVerticalAlignment.VAlign_Center⟩ ∧
    ({} : FLetterboxLayoutSettings).TipAlignment =
      ⟨EHorizontalAlignment.HAlign_Center, EVerticalAlignment.VAlign_Center⟩ ∧
    ({} : FLetterboxLayoutSettings).LoadingWidgetAlignment =
      ⟨EHorizontalAlignment.HAlign_Center, EVerticalAlignment.VAlign_Center⟩ ∧
    ({} : FSidebarLayoutSettings).LoadingWidgetAlignment =
      ⟨EHorizontalAlignment.HAlign_Center, EVerticalAlignment.VAlign_Center⟩ ∧
    ({} : FSidebarLayoutSettings).TipAlignment =
      ⟨EHorizontalAlignment.HAlign_Center, EVerticalAlignment.VAlign_Center⟩ :=
  ⟨rfl, rfl, rfl, rfl, rfl, rfl, rfl, rfl, rfl⟩

/-- C4: the declared clamp ranges are the documented ones: both piece counts
are clamped to [1, 25], the period has lower bound 0 and no upper bound, the
interval is clamped to [0, 1]; and on each of these members the UI range, where
declared, is the clamp range. -/
theorem C4_declared_clamp_ranges :
    (FThrobberSettings.NumberOfPieces_meta.ClampMin = some 1 ∧
      FThrobberSettings.NumberOfPieces_meta.ClampMax = some 25) ∧
    (FCircularThrobberSettings.NumberOfPieces_meta.ClampMin = some 1 ∧
      FCircularThrobberSettings.NumberOfPieces_meta.ClampMax = some 25) ∧
    (FCircularThrobberSettings.Period_meta.ClampMin = some 0 ∧
      FCircularThrobberSettings.Period_meta.ClampMax = none) ∧
    (FImageSequenceSettings.Interval_meta.ClampMin = some 0 ∧
      FImageSequenceSettings.Interval_meta.ClampMax = some 1) ∧
    (FThrobberSettings.NumberOfPieces_meta.UIMin =
        FThrobberSettings.NumberOfPieces_meta.ClampMin ∧
      FThrobberSettings.NumberOfPieces_meta.UIMax =
        FThrobberSettings.NumberOfPieces_meta.ClampMax) ∧
    (FCircularThrobberSettings.NumberOfPieces_meta.UIMin =
        FCircularThrobberSettings.NumberOfPieces_meta.ClampMin ∧
      FCircularThrobberSettings.NumberOfPieces_meta.UIMax =
        FCircularThrobberSettings.NumberOfPieces_meta.ClampMax) ∧
    (FCircularThrobberSettings.Period_meta.UIMin =
        FCircularThrobberSettings.Period_meta.ClampMin ∧
      FCircularThrobberSettings.Period_meta.UIMax =
        FCircularThrobberSettings.Period_meta.ClampMax) ∧
    (FImageSequenceSettings.Interval_meta.UIMin =
        FImageSequenceSettings.Interval_meta.ClampMin ∧
      FImageSequenceSettings.Interval_meta.UIMax =
        FImageSequenceSettings.Interval_meta.ClampMax) := by
  refine ⟨⟨rfl, rfl⟩, ⟨rfl, rfl⟩, ⟨rfl, rfl⟩, ⟨rfl, rfl⟩, ⟨rfl, rfl⟩, ⟨rfl, rfl⟩,
    ⟨rfl, rfl⟩, ⟨?_, ?_⟩⟩
  · show some (0.00 : ℚ) = some 0
    norm_num
  · show some (1.00 : ℚ) = some 1
    norm_num

/-- Clamping to a range whose declared lower bound is not above its declared
upper bound gives the clamped value in the sense of `ClampsTo`. -/
theorem PropertyMeta.clampsTo_clamp {α : Type} [LinearOrder α] (m : PropertyMeta α)
    (hm : ∀ lo hi, m.ClampMin = some lo → m.ClampMax = some hi → lo ≤ hi) (v : α) :
    m.ClampsTo v (m.clamp v) := by
  obtain ⟨cmin, cmax, umin, umax⟩ := m
  cases cmin with
  | none =>
    cases cmax with
    | none =>
      refine ⟨rfl, ⟨?_, ?_⟩, fun _ => rfl, ?_, ?_⟩ <;> intro b hb <;> cases hb
    | some hi =>
      have hc : (PropertyMeta.mk none (some hi) umin umax).clamp v = min hi v := rfl
      rw [hc]
      refine ⟨rfl, ⟨?_, ?_⟩, ?_, ?_, ?_⟩
      · intro b hb
        cases hb
      · intro b hb
        cases hb
        exact min_le_left _ _
      · intro h
        exact min_eq_right (h.2 hi rfl)
      · intro b hb
        cases hb
      · intro b hb hlt
        cases hb
        exact min_eq_left hlt.le
  | some lo =>
    cases cmax with
    | none =>
      have hc : (PropertyMeta.mk (some lo) none umin umax).clamp v = max lo v := rfl
      rw [hc]
      refine ⟨rfl, ⟨?_, ?_⟩, ?_, ?_, ?_⟩
      · intro b hb
        cases hb
        exact le_max_left _ _
      · intro b hb
        cases hb
      · intro h
        exact max_eq_right (h.1 lo rfl)
      · intro b hb hlt
        cases hb
        exact max_eq_left hlt.le
      · intro b hb
        cases hb
    | some hi =>
      have hle : lo ≤ hi := hm lo hi rfl rfl
      have hc : (PropertyMeta.mk (some lo) (some hi) umin umax).clamp v =
          min hi (max lo v) := rfl
      rw [hc]
      refine ⟨rfl, ⟨?_, ?_⟩, ?_, ?_, ?_⟩
      · intro b hb
        cases hb
        exact le_min hle (le_max_left _ _)
      · intro b hb
        cases hb
        exact min_le_left _ _
      · intro h
        rw [max_eq_right (h.1 lo rfl), min_eq_right (h.2 hi rfl)]
      · intro b hb hlt
        cases hb
        rw [max_eq_left hlt.le, min_eq_right hle]
      · intro b hb hlt
        cases hb
        exact min_eq_left (le_trans hlt.le (le_max_right _ _))

/-- The per-screen part of loading: every clamped numeric member of the
clamped record is the clamped member of the given record. -/
theorem FALoadingScreenSettings.clampedFrom_clamped (s : FALoadingScreenSettings) :
    FALoadingScreenSettings.ClampedFrom s s.clamped := by
  refine ⟨?_, ?_, ?_, ?_, ?_, ?_⟩
  · exact PropertyMeta.clampsTo_clamp _
      (by intro lo hi h1 h2; cases h1; cases h2; decide) _
  · exact PropertyMeta.clampsTo_clamp _
      (by intro lo hi h1 h2; cases h1; cases h2; decide) _
  · exact PropertyMeta.clampsTo_clamp _ (by intro lo hi h1 h2; cases h2) _
  · exact PropertyMeta.clampsTo_clamp _ (by intro lo hi h1 h2; cases h2) _
  · exact PropertyMeta.clampsTo_clamp _
      (by intro lo hi h1 h2; cases h1; cases h2; norm_num) _
  · exact PropertyMeta.clampsTo_clamp _ (by intro lo hi h1 h2; cases h2) _

/-- C5: every clamped numeric member stays in range after loading, an
out-of-range value being clamped: for every persisted tree, on the startup and
on the default screen both piece counts, the period, the radius, the interval
and the loading-widget space, and on the root the classic and the sidebar
space, are loaded as the persisted value clamped to the range of the member;
an in-range value is kept and a value beyond a declared bound becomes that
bound.  The radius and the three spaces declare no bound, so they are loaded
as persisted. -/
theorem C5_loaded_members_are_clamped (p : ULoadingScreenSettings) :
    FALoadingScreenSettings.ClampedFrom p.StartupLoadingScreen (load p).StartupLoadingScreen ∧
    FALoadingScreenSettings.ClampedFrom p.DefaultLoadingScreen (load p).DefaultLoadingScreen ∧
    FClassicLayoutSettings.Space_meta.ClampsTo p.Classic.Space (load p).Classic.Space ∧
    FSidebarLayoutSettings.Space_meta.ClampsTo p.Sidebar.Space (load p).Sidebar.Space ∧
    ((load p).StartupLoadingScreen.LoadingWidget.CircularThrobberSettings.Radius =
        p.StartupLoadingScreen.LoadingWidget.CircularThrobberSettings.Radius ∧
      (load p).DefaultLoadingScreen.LoadingWidget.CircularThrobberSettings.Radius =
        p.DefaultLoadingScreen.LoadingWidget.CircularThrobberSettings.Radius ∧
      (load p).StartupLoadingScreen.LoadingWidget.Space =
        p.StartupLoadingScreen.LoadingWidget.Space ∧
      (load p).DefaultLoadingScreen.LoadingWidget.Space =
        p.DefaultLoadingScreen.LoadingWidget.Space ∧
      (load p).Classic.Space = p.Classic.Space ∧
      (load p).Sidebar.Space = p.Sidebar.Space) := by
  refine ⟨FALoadingScreenSettings.clampedFrom_clamped _,
    FALoadingScreenSettings.clampedFrom_clamped _, ?_, ?_,
    ⟨rfl, rfl, rfl, rfl, rfl, rfl⟩⟩
  · exact PropertyMeta.clampsTo_clamp _ (by intro lo hi h1 h2; cases h2) _
  · exact PropertyMeta.clampsTo_clamp _ (by intro lo hi h1 h2; cases h2) _

/-- The default-initialised loading widget is a fixed point of clamping. -/
theorem FLoadingWidgetSettings.clamped_init (u : FTextAppearance.Unset) :
    (FLoadingWidgetSettings.init u).clamped = FLoadingWidgetSettings.init u := by
  have h1 : max (1 : Int) 3 = 3 := by decide
  have h2 : min (25 : Int) 3 = 3 := by decide
  have h3 : max (1 : Int) 6 = 6 := by decide
  have h4 : min (25 : Int) 6 = 6 := by decide
  have h5 : max (0 : ℚ) 0.75 = 0.75 := by norm_num
  have h6 : max (0 : ℚ) 0.05 = 0.05 := by norm_num
  have h7 : min (1 : ℚ) 0.05 = 0.05 := by norm_num
  simp only [FLoadingWidgetSettings.init, FLoadingWidgetSettings.clamped,
    FThrobberSettings.clamped, FCircularThrobberSettings.clamped,
    FImageSequenceSettings.clamped, PropertyMeta.clamp,
    FThrobberSettings.NumberOfPieces_meta, FCircularThrobberSettings.NumberOfPieces_meta,
    FCircularThrobberSettings.Period_meta, FCircularThrobberSettings.Radius_meta,
    FImageSequenceSettings.Interval_meta, FLoadingWidgetSettings.Space_meta,
    h1, h2, h3, h4, h5, h6, h7]

/-- C6: in the default settings tree every clamped member lies in its declared
range (3 and 6 pieces in [1, 25], period 3/4 not below 0, interval 1/20 in
[0, 1]), and clamping the default tree to the declared ranges leaves it
unchanged. -/
theorem C6_default_tree_in_range (u : ULoadingScreenSettings.Unset) :
    FThrobberSettings.NumberOfPieces_meta.InRange ({} : FThrobberSettings).NumberOfPieces ∧
    FCircularThrobberSettings.NumberOfPieces_meta.InRange
      ({} : FCircularThrobberSettings).NumberOfPieces ∧
    FCircularThrobberSettings.Period_meta.InRange ({} : FCircularThrobberSettings).Period ∧
    FImageSequenceSettings.Interval_meta.InRange ({} : FImageSequenceSettings).Interval ∧
    ((1 : Int) ≤ ({} : FThrobberSettings).NumberOfPieces ∧
      ({} : FThrobberSettings).NumberOfPieces ≤ 25 ∧
      (1 : Int) ≤ ({} : FCircularThrobberSettings).NumberOfPieces ∧
      ({} : FCircularThrobberSettings).NumberOfPieces ≤ 25 ∧
      (0 : ℚ) ≤ ({} : FCircularThrobberSettings).Period ∧
      (0 : ℚ) ≤ ({} : FImageSequenceSettings).Interval ∧
      ({} : FImageSequenceSettings).Interval ≤ 1) ∧
    (ULoadingScreenSettings.init u).clamped = ULoadingScreenSettings.init u := by
  refine ⟨⟨?_, ?_⟩, ⟨?_, ?_⟩, ⟨?_, ?_⟩, ⟨?_, ?_⟩, ⟨?_, ?_, ?_, ?_, ?_, ?_, ?_⟩, ?_⟩
  · intro lo h; cases h; decide
  · intro hi h; cases h; decide
  · intro lo h; cases h; decide
  · intro hi h; cases h; decide
  · intro lo h; cases h; show (0 : ℚ) ≤ 0.75; norm_num
  · intro hi h; cases h
  · intro lo h; cases h; show (0 : ℚ) ≤ 0.05; norm_num
  · intro hi h; cases h; show (0.05 : ℚ) ≤ 1; norm_num
  · decide
  · decide
  · decide
  · decide
  · show (0 : ℚ) ≤ 0.75; norm_num
  · show (0 : ℚ) ≤ 0.05; norm_num
  · show (0.05 : ℚ) ≤ 1; norm_num
  · have hc : ({} : FClassicLayoutSettings).clamped = {} := rfl
    have hs : ({} : FSidebarLayoutSettings).clamped = {} := rfl
    simp only [ULoadingScreenSettings.init, ULoadingScreenSettings.clamped,
      FALoadingScreenSettings.init, FALoadingScreenSettings.clamped,
      FLoadingWidgetSettings.clamped_init, hc, hs]

/-- C7: the layout tag selects exactly one layout record.  The enumeration has
exactly five values with pairwise distinct underlying values; the root settings
hold exactly five layout members, of five distinct types; every tag has the
member of its name, two different tags have different members, and every
member is the member of a tag; and in every root settings value the record
selected by a tag is the record of that tag. -/
theorem C7_layout_tag_selects_one_record :
    Fintype.card EAsyncLoadingScreenLayout = 5 ∧
    Function.Injective EAsyncLoadingScreenLayout.toUInt8 ∧
    ULoadingScreenSettings.layoutMembers.length = 5 ∧
    (ULoadingScreenSettings.layoutMembers.map MemberDecl.typeName).Nodup ∧
    (ULoadingScreenSettings.layoutMembers.map MemberDecl.memberName).Nodup ∧
    (∀ t : EAsyncLoadingScreenLayout, ∃ m ∈ ULoadingScreenSettings.layoutMembers,
      t.member = some m ∧ "ALSL_" ++ m.memberName = t.identifier) ∧
    Function.Injective EAsyncLoadingScreenLayout.member ∧
    (∀ m ∈ ULoadingScreenSettings.layoutMembers,
      ∃ t : EAsyncLoadingScreenLayout, t.member = some m) ∧
    (∀ (r : ULoadingScreenSettings) (t : EAsyncLoadingScreenLayout),
      (r.layoutSettings t).tag = t) ∧
    (∀ r : ULoadingScreenSettings, Function.Injective r.layoutSettings) := by
  have htag : ∀ (r : ULoadingScreenSettings) (t : EAsyncLoadingScreenLayout),
      (r.layoutSettings t).tag = t := by
    intro r t
    cases t <;> rfl
  refine ⟨rfl, ?_, rfl, by decide, by decide, ?_, ?_, ?_, htag, ?_⟩
  · intro a b h
    cases a <;> cases b <;> first | rfl | cases h
  · intro t
    cases t <;> decide
  · intro a b h
    cases a <;> cases b <;> first | rfl | (exact absurd h (by decide))
  · decide
  · intro r a b h
    have := congrArg FLayoutSettings.tag h
    rwa [htag, htag] at this

/-- C8: exactly one indicator variant is active per loading widget.  The icon
type has exactly three values with pairwise distinct underlying values; the
active indicator of a loading widget is the record of its icon type, under
that type; and two loading widgets that differ only in the two records the
icon type does not select have the same active indicator. -/
theorem C8_one_active_indicator (w w2 : FLoadingWidgetSettings)
    (h : w.SameButUnselected w2) :
    Fintype.card ELoadingIconType = 3 ∧
    Function.Injective ELoadingIconType.toUInt8 ∧
    w.activeIcon.iconType = w.LoadingIconType ∧
    ((w.LoadingIconType = ELoadingIconType.LIT_Throbber ∧
        w.activeIcon = FLoadingIcon.Throbber w.ThrobberSettings) ∨
      (w.LoadingIconType = ELoadingIconType.LIT_CircularThrobber ∧
        w.activeIcon = FLoadingIcon.CircularThrobber w.CircularThrobberSettings) ∨
      (w.LoadingIconType = ELoadingIconType.LIT_ImageSequence ∧
        w.activeIcon = FLoadingIcon.ImageSequence w.ImageSequenceSettings)) ∧
    w2.activeIcon = w.activeIcon := by
  obtain ⟨ht, -, -, -, -, -, -, -, -, -, -, -, h1, h2, h3⟩ := h
  refine ⟨rfl, ?_, ?_, ?_, ?_⟩
  · intro a b h
    cases a <;> cases b <;> first | rfl | cases h
  · unfold FLoadingWidgetSettings.activeIcon
    cases w.LoadingIconType <;> rfl
  · unfold FLoadingWidgetSettings.activeIcon
    cases w.LoadingIconType <;> simp
  · unfold FLoadingWidgetSettings.activeIcon
    rw [ht]
    cases hw : w.LoadingIconType
    · simp only [h1 hw]
    · simp only [h2 hw]
    · simp only [h3 hw]

/-- Witness of C8: the default-initialised loading widget, which shows the
circular throbber, and the same widget with 9 linear throbber pieces and a
reversed image sequence. -/
theorem C8_one_active_indicator_witness :
    (FLoadingWidgetSettings.init ⟨⟨0, 0⟩, FLinearColor.Black, ETextJustify.Left⟩).SameButUnselected
      { FLoadingWidgetSettings.init ⟨⟨0, 0⟩, FLinearColor.Black, ETextJustify.Left⟩ with
        ThrobberSettings := { NumberOfPieces := 9 }
        ImageSequenceSettings := { bPlayReverse := true } } ∧
    ({ FLoadingWidgetSettings.init ⟨⟨0, 0⟩, FLinearColor.Black, ETextJustify.Left⟩ with
        ThrobberSettings := { NumberOfPieces := 9 }
        ImageSequenceSettings := { bPlayReverse := true } } : FLoadingWidgetSettings).activeIcon
      = (FLoadingWidgetSettings.init ⟨⟨0, 0⟩, FLinearColor.Black, ETextJustify.Left⟩).activeIcon :=
  have hs : (FLoadingWidgetSettings.init
      ⟨⟨0, 0⟩, FLinearColor.Black, ETextJustify.Left⟩).SameButUnselected
      { FLoadingWidgetSettings.init ⟨⟨0, 0⟩, FLinearColor.Black, ETextJustify.Left⟩ with
        ThrobberSettings := { NumberOfPieces := 9 }
        ImageSequenceSettings := { bPlayReverse := true } } := by
    refine ⟨rfl, rfl, rfl, rfl, rfl, rfl, rfl, rfl, rfl, rfl, rfl, rfl, ?_, ?_, ?_⟩
    · intro h
      cases h
    · intro _
      rfl
    · intro h
      cases h
  ⟨hs, (C8_one_active_indicator _ _ hs).2.2.2.2⟩

/-- The gate is independent of the members other than the minimum display
time: it is open exactly when the time is the sentinel -1 or has elapsed. -/
theorem minimumDisplayTimeReached_iff (s : FALoadingScreenSettings) (elapsed : ℚ) :
    minimumDisplayTimeReached s elapsed = true ↔
      s.MinimumLoadingScreenDisplayTime = -1 ∨ s.MinimumLoadingScreenDisplayTime ≤ elapsed := by
  simp [minimumDisplayTimeReached]

/-- Evaluation of the dismissal keeps the gate invariant: it enters
`Dismissing` only with the gate open. -/
theorem Controller.evaluate_gate (c : Controller)
    (h : c.phase = EPhase.Dismissing → minimumDisplayTimeReached c.settings c.elapsed = true) :
    c.evaluate.phase = EPhase.Dismissing →
      minimumDisplayTimeReached c.evaluate.settings c.evaluate.elapsed = true := by
  unfold Controller.evaluate
  split
  · rename_i hc
    intro _
    have hm := hc.2
    simp only [Controller.mayDismiss, Bool.and_eq_true] at hm
    exact hm.1.2
  · exact h

/-- One step of the controller keeps the gate invariant. -/
theorem Controller.step_gate (c : Controller) (sig : HostSignal)
    (h : c.phase = EPhase.Dismissing → minimumDisplayTimeReached c.settings c.elapsed = true) :
    (c.step sig).phase = EPhase.Dismissing →
      minimumDisplayTimeReached (c.step sig).settings (c.step sig).elapsed = true := by
  cases sig with
  | PreLoadMap draw =>
    simp only [Controller.step]
    split
    · intro hp
      cases hp
    · exact h
  | FirstFrame =>
    simp only [Controller.step]
    split
    · intro hp
      cases hp
    · exact h
  | LoadComplete =>
    simp only [Controller.step]
    split
    · exact h
    · exact Controller.evaluate_gate _ h
  | UserClicked =>
    simp only [Controller.step]
    split
    · exact h
    · exact h
  | ManualStop =>
    simp only [Controller.step]
    split
    · exact h
    · exact h
  | LastMovieStarted =>
    simp only [Controller.step]
    split
    · exact h
    · exact h
  | Tick dt =>
    simp only [Controller.step]
    split
    · exact h
    · intro hp
      rename_i hs
      simp [hs] at hp
    · rename_i hs
      apply Controller.evaluate_gate
      intro hp
      simp [hs] at hp
    · intro hp
      cases hp
  | ForceDismiss =>
    intro hp
    cases hp

/-- Every run of the controller keeps the gate invariant. -/
theorem Controller.run_gate (signals : List HostSignal) (c : Controller)
    (h : c.phase = EPhase.Dismissing → minimumDisplayTimeReached c.settings c.elapsed = true) :
    (c.run signals).phase = EPhase.Dismissing →
      minimumDisplayTimeReached (c.run signals).settings (c.run signals).elapsed = true := by
  induction signals generalizing c with
  | nil => exact h
  | cons sig rest ih => exact ih (c.step sig) (Controller.step_gate c sig h)

/-- Evaluation in `Displaying` moves to `Dismissing` exactly when the
condition of the transition holds, and changes nothing else. -/
theorem Controller.evaluate_displaying (c : Controller) (hp : c.phase = EPhase.Displaying) :
    c.evaluate =
      { c with phase := if c.mayDismiss then EPhase.Dismissing else EPhase.Displaying } := by
  obtain ⟨root, phase, st, tree, e, lc, uc, ms, su⟩ := c
  cases hp
  unfold Controller.evaluate
  by_cases h : (Controller.mk root EPhase.Displaying st tree e lc uc ms su).mayDismiss = true
  · simp [h]
  · simp [h]

/-- A tick in `Displaying` advances the elapsed time and evaluates the
dismissal at the new time. -/
theorem Controller.step_tick_displaying (c : Controller) (dt : ℚ)
    (hp : c.phase = EPhase.Displaying) :
    c.step (HostSignal.Tick dt) =
      { c with
        elapsed := c.elapsed + dt
        phase := if c.loadComplete && minimumDisplayTimeReached c.settings (c.elapsed + dt) &&
            c.dismissalPolicy then EPhase.Dismissing else EPhase.Displaying } := by
  obtain ⟨root, phase, st, tree, e, lc, uc, ms, su⟩ := c
  cases hp
  exact Controller.evaluate_displaying _ rfl

/-- The signal "load complete" in `Displaying` is latched and evaluates the
dismissal at the current time. -/
theorem Controller.step_loadComplete_displaying (c : Controller)
    (hp : c.phase = EPhase.Displaying) :
    c.step HostSignal.LoadComplete =
      { c with
        loadComplete := true
        phase := if minimumDisplayTimeReached c.settings c.elapsed && c.dismissalPolicy
          then EPhase.Dismissing else EPhase.Displaying } := by
  obtain ⟨root, phase, st, tree, e, lc, uc, ms, su⟩ := c
  cases hp
  exact Controller.evaluate_displaying _ rfl

/-- The states of the session with minimum display time 3 and auto-complete in
which "load complete" arrives at 1 s: displaying at 1 s and at 2 s, dismissing
at 3 s. -/
theorem Controller.scenario_states (root : ULoadingScreenSettings) (draw : SessionDraw)
    (hT : root.StartupLoadingScreen.MinimumLoadingScreenDisplayTime = 3)
    (hA : root.StartupLoadingScreen.bAutoCompleteWhenLoadingCompletes = true) :
    (Controller.start root).run
        [HostSignal.PreLoadMap draw, HostSignal.FirstFrame, HostSignal.Tick 1,
          HostSignal.LoadComplete] =
      ⟨root, EPhase.Displaying, root.StartupLoadingScreen,
        composeLoadingScreen root root.StartupLoadingScreen draw, 1, true, false, false, true⟩ ∧
    (Controller.start root).run
        [HostSignal.PreLoadMap draw, HostSignal.FirstFrame, HostSignal.Tick 1,
          HostSignal.LoadComplete, HostSignal.Tick 1] =
      ⟨root, EPhase.Displaying, root.StartupLoadingScreen,
        composeLoadingScreen root root.StartupLoadingScreen draw, 2, true, false, false, true⟩ ∧
    (Controller.start root).run
        [HostSignal.PreLoadMap draw, HostSignal.FirstFrame, HostSignal.Tick 1,
          HostSignal.LoadComplete, HostSignal.Tick 1, HostSignal.Tick 1] =
      ⟨root, EPhase.Dismissing, root.StartupLoadingScreen,
        composeLoadingScreen root root.StartupLoadingScreen draw, 3, true, false, false, true⟩ := by
  have e1 : (Controller.start root).step (HostSignal.PreLoadMap draw) =
      ⟨root, EPhase.Showing, root.StartupLoadingScreen,
        composeLoadingScreen root root.StartupLoadingScreen draw, 0, false, false, false, true⟩ :=
    rfl
  have e2 : (Controller.mk root EPhase.Showing root.StartupLoadingScreen
        (composeLoadingScreen root root.StartupLoadingScreen draw) 0 false false false
        true).step HostSignal.FirstFrame =
      ⟨root, EPhase.Displaying, root.StartupLoadingScreen,
        composeLoadingScreen root root.StartupLoadingScreen draw, 0, false, false, false, true⟩ :=
    rfl
  have e3 : (Controller.mk root EPhase.Displaying root.StartupLoadingScreen
        (composeLoadingScreen root root.StartupLoadingScreen draw) 0 false false false
        true).step (HostSignal.Tick 1) =
      ⟨root, EPhase.Displaying, root.StartupLoadingScreen,
        composeLoadingScreen root root.StartupLoadingScreen draw, 1, false, false, false, true⟩ := by
    rw [Controller.step_tick_displaying _ _ rfl]
    norm_num
  have e4 : (Controller.mk root EPhase.Displaying root.StartupLoadingScreen
        (composeLoadingScreen root root.StartupLoadingScreen draw) 1 false false false
        true).step HostSignal.LoadComplete =
      ⟨root, EPhase.Displaying, root.StartupLoadingScreen,
        composeLoadingScreen root root.StartupLoadingScreen draw, 1, true, false, false, true⟩ := by
    rw [Controller.step_loadComplete_displaying _ rfl]
    norm_num [minimumDisplayTimeReached, hT]
  have e5 : (Controller.mk root EPhase.Displaying root.StartupLoadingScreen
        (composeLoadingScreen root root.StartupLoadingScreen draw) 1 true false false
        true).step (HostSignal.Tick 1) =
      ⟨root, EPhase.Displaying, root.StartupLoadingScreen,
        composeLoadingScreen root root.StartupLoadingScreen draw, 2, true, false, false, true⟩ := by
    rw [Controller.step_tick_displaying _ _ rfl]
    norm_num [minimumDisplayTimeReached, hT]
  have e6 : (Controller.mk root EPhase.Displaying root.StartupLoadingScreen
        (composeLoadingScreen root root.StartupLoadingScreen draw) 2 true false false
        true).step (HostSignal.Tick 1) =
      ⟨root, EPhase.Dismissing, root.StartupLoadingScreen,
        composeLoadingScreen root root.StartupLoadingScreen draw, 3, true, false, false, true⟩ := by
    rw [Controller.step_tick_displaying _ _ rfl]
    norm_num [minimumDisplayTimeReached, Controller.dismissalPolicy, hT, hA]
  refine ⟨?_, ?_, ?_⟩ <;>
    simp only [Controller.run, List.foldl_cons, List.foldl_nil, e1, e2, e3, e4, e5, e6]

/-- C9: the minimum-display-time gate of the lifecycle controller.  After any
sequence of host signals from process start, a session with minimum display
time `T ≥ 0` is in `Dismissing` only with `T ≤ elapsed`; in particular with
`T > 0` "load complete" at t = 0 leaves the session in `Displaying`.  With
`T = 3` and auto-complete, "load complete" at 1 s does not dismiss at 1 s nor
at 2 s and dismisses at 3 s.  With `T = -1`, "load complete" takes a displaying
session whose dismissal policy holds to `Dismissing` at once, at any elapsed
time. -/
theorem C9_minimum_display_time_gate :
    (∀ (root : ULoadingScreenSettings) (signals : List HostSignal),
      ((Controller.start root).run signals).phase = EPhase.Dismissing →
      0 ≤ ((Controller.start root).run signals).settings.MinimumLoadingScreenDisplayTime →
      ((Controller.start root).run signals).settings.MinimumLoadingScreenDisplayTime ≤
        ((Controller.start root).run signals).elapsed) ∧
    (∀ (root : ULoadingScreenSettings) (draw : SessionDraw),
      0 < root.StartupLoadingScreen.MinimumLoadingScreenDisplayTime →
      ((Controller.start root).run
        [HostSignal.PreLoadMap draw, HostSignal.FirstFrame, HostSignal.LoadComplete]).phase =
        EPhase.Displaying) ∧
    (∀ (root : ULoadingScreenSettings) (draw : SessionDraw),
      root.StartupLoadingScreen.MinimumLoadingScreenDisplayTime = 3 →
      root.StartupLoadingScreen.bAutoCompleteWhenLoadingCompletes = true →
      ((Controller.start root).run
        [HostSignal.PreLoadMap draw, HostSignal.FirstFrame, HostSignal.Tick 1,
          HostSignal.LoadComplete]).phase = EPhase.Displaying ∧
      ((Controller.start root).run
        [HostSignal.PreLoadMap draw, HostSignal.FirstFrame, HostSignal.Tick 1,
          HostSignal.LoadComplete, HostSignal.Tick 1]).phase = EPhase.Displaying ∧
      ((Controller.start root).run
        [HostSignal.PreLoadMap draw, HostSignal.FirstFrame, HostSignal.Tick 1,
          HostSignal.LoadComplete, HostSignal.Tick 1, HostSignal.Tick 1]).phase =
        EPhase.Dismissing ∧
      ((Controller.start root).run
        [HostSignal.PreLoadMap draw, HostSignal.FirstFrame, HostSignal.Tick 1,
          HostSignal.LoadComplete, HostSignal.Tick 1, HostSignal.Tick 1]).elapsed = 3) ∧
    (∀ c : Controller, c.phase = EPhase.Displaying →
      c.settings.MinimumLoadingScreenDisplayTime = -1 → c.dismissalPolicy = true →
      (c.step HostSignal.LoadComplete).phase = EPhase.Dismissing ∧
      (c.step HostSignal.LoadComplete).elapsed = c.elapsed) := by
  refine ⟨?_, ?_, ?_, ?_⟩
  · intro root signals hp hT
    have hg := Controller.run_gate signals (Controller.start root)
      (by intro h; cases h) hp
    rcases (minimumDisplayTimeReached_iff _ _).1 hg with h | h
    · rw [h] at hT
      norm_num at hT
    · exact h
  · intro root draw hT
    have hne : ¬ root.StartupLoadingScreen.MinimumLoadingScreenDisplayTime = -1 := by
      intro h
      rw [h] at hT
      norm_num at hT
    simp [Controller.run, Controller.step, Controller.start, Controller.evaluate,
      Controller.mayDismiss, minimumDisplayTimeReached, hne, not_le.2 hT]
  · intro root draw hT hA
    obtain ⟨h1, h2, h3⟩ := Controller.scenario_states root draw hT hA
    rw [h1, h2, h3]
    exact ⟨rfl, rfl, rfl, rfl⟩
  · intro c hp hT hpol
    rw [Controller.step_loadComplete_displaying c hp]
    simp [minimumDisplayTimeReached, hT, hpol]

/-- Witness of C9: on the sample root with minimum display time 3 the session
with "load complete" at 1 s is dismissing after three ticks of 1 s, with the 3 s
elapsed; on the sample root with minimum display time -1 "load complete" right
after the first frame dismisses at once. -/
theorem C9_minimum_display_time_gate_witness :
    ((Controller.start (sampleRoot 3)).run
      [HostSignal.PreLoadMap ⟨0, 0⟩, HostSignal.FirstFrame, HostSignal.Tick 1,
        HostSignal.LoadComplete, HostSignal.Tick 1, HostSignal.Tick 1]).phase =
      EPhase.Dismissing ∧
    (3 : ℚ) ≤ ((Controller.start (sampleRoot 3)).run
      [HostSignal.PreLoadMap ⟨0, 0⟩, HostSignal.FirstFrame, HostSignal.Tick 1,
        HostSignal.LoadComplete, HostSignal.Tick 1, HostSignal.Tick 1]).elapsed ∧
    ((Controller.start (sampleRoot 1)).run
      [HostSignal.PreLoadMap ⟨0, 0⟩, HostSignal.FirstFrame, HostSignal.LoadComplete]).phase =
      EPhase.Displaying ∧
    (((Controller.start (sampleRoot (-1))).run
      [HostSignal.PreLoadMap ⟨0, 0⟩, HostSignal.FirstFrame]).step
        HostSignal.LoadComplete).phase = EPhase.Dismissing := by
  have hd := (C9_minimum_display_time_gate.2.2.1 (sampleRoot 3) ⟨0, 0⟩ rfl rfl).2.2.1
  refine ⟨hd, ?_, ?_, ?_⟩
  · have hs : ((Controller.start (sampleRoot 3)).run
        [HostSignal.PreLoadMap ⟨0, 0⟩, HostSignal.FirstFrame, HostSignal.Tick 1,
          HostSignal.LoadComplete, HostSignal.Tick 1,
          HostSignal.Tick 1]).settings.MinimumLoadingScreenDisplayTime = 3 := by
      rw [(Controller.scenario_states (sampleRoot 3) ⟨0, 0⟩ rfl rfl).2.2]
      rfl
    have h := C9_minimum_display_time_gate.1 (sampleRoot 3) _ hd (by rw [hs]; norm_num)
    rwa [hs] at h
  · exact C9_minimum_display_time_gate.2.1 (sampleRoot 1) ⟨0, 0⟩
      (by show (0 : ℚ) < 1; norm_num)
  · exact (C9_minimum_display_time_gate.2.2.2
      ((Controller.start (sampleRoot (-1))).run
        [HostSignal.PreLoadMap ⟨0, 0⟩, HostSignal.FirstFrame]) rfl rfl rfl).1

/-- With the widget overlay shown, the composed tree has exactly one
background, one tip and one loading indicator, in every layout. -/
theorem composeLoadingScreen_overlay_count (root : ULoadingScreenSettings)
    (s : FALoadingScreenSettings) (draw : SessionDraw) (h : s.bShowWidgetOverlay = true) :
    (composeLoadingScreen root s draw).count ENodeKind.Background = 1 ∧
    (composeLoadingScreen root s draw).count ENodeKind.Tip = 1 ∧
    (composeLoadingScreen root s draw).count ENodeKind.Indicator = 1 := by
  have hl : ∀ k, (loadingWidget s.LoadingWidget).count k =
      if k = ENodeKind.Indicator then 1 else if k = ENodeKind.Label then 1 else 0 := by
    intro k
    unfold loadingWidget
    cases s.LoadingWidget.LoadingWidgetType <;>
      cases s.LoadingWidget.bLoadingTextRightPosition <;>
      cases s.LoadingWidget.bLoadingTextTopPosition <;>
      by_cases ht : s.LoadingWidget.LoadingText = "" <;>
      cases k <;>
      simp [ht, Widget.count, Widget.countList]
  unfold composeLoadingScreen
  rw [if_pos h]
  cases hlay : s.Layout <;>
    simp only [ULoadingScreenSettings.layoutSettings, classicLayout, centerLayout,
      letterboxLayout, sidebarLayout, dualSidebarLayout, backgroundWidget, tipWidget]
  · cases root.Classic.bIsLoadingWidgetAtLeft <;>
      simp [Widget.count, Widget.countList, hl]
  · simp [Widget.count, Widget.countList, hl]
  · cases root.Letterbox.bIsLoadingWidgetAtTop <;>
      simp [Widget.count, Widget.countList, hl]
  · cases root.Sidebar.bIsLoadingWidgetAtTop <;>
      simp [Widget.count, Widget.countList, hl]
  · cases root.DualSidebar.bIsLoadingWidgetAtRight <;>
      simp [Widget.count, Widget.countList, hl]

/-- C10: if `bShowWidgetOverlay` is false then, for every per-screen record and
every root settings value and random draw, the composed widget tree is the
empty tree: it has no background, no tip and no loading-indicator node (and no
node of any other content kind). -/
theorem C10_no_overlay_empty_tree (root : ULoadingScreenSettings)
    (s : FALoadingScreenSettings) (draw : SessionDraw) (h : s.bShowWidgetOverlay = false) :
    composeLoadingScreen root s draw = Widget.Null ∧
    (composeLoadingScreen root s draw).count ENodeKind.Background = 0 ∧
    (composeLoadingScreen root s draw).count ENodeKind.Tip = 0 ∧
    (composeLoadingScreen root s draw).count ENodeKind.Indicator = 0 ∧
    (∀ k, (composeLoadingScreen root s draw).count k = 0) := by
  have hn : composeLoadingScreen root s draw = Widget.Null := by
    unfold composeLoadingScreen
    rw [h]
    rfl
  rw [hn]
  exact ⟨rfl, rfl, rfl, rfl, fun _ => rfl⟩

/-- Witness of C10: the sample movie-only screen, with sidebar layout, tips, a
background image and a loading text configured, composes to the empty tree. -/
theorem C10_no_overlay_empty_tree_witness :
    sampleMovieOnlyScreen.bShowWidgetOverlay = false ∧
    composeLoadingScreen (sampleRoot 3) sampleMovieOnlyScreen ⟨0, 1⟩ = Widget.Null ∧
    (composeLoadingScreen (sampleRoot 3) sampleMovieOnlyScreen ⟨0, 1⟩).count
      ENodeKind.Background = 0 :=
  ⟨rfl, (C10_no_overlay_empty_tree (sampleRoot 3) sampleMovieOnlyScreen ⟨0, 1⟩ rfl).1,
    (C10_no_overlay_empty_tree (sampleRoot 3) sampleMovieOnlyScreen ⟨0, 1⟩ rfl).2.1⟩

/-- C13: defaults of the per-screen and loading-widget records that come from
the in-class initialisers: a default-initialised per-screen record has
`bWaitForManualStop` false and `bShowWidgetOverlay` true; a default-initialised
loading widget has the circular throbber as icon type, horizontal orientation,
the text on the right and on top, space 1 and the identity render transform
(translation (0,0), scale (1,1), pivot (1/2,1/2)); a default-initialised image
sequence has scale (1,1) and does not play in reverse.  All of it holds for
every value of the members without initialiser. -/
theorem C13_screen_and_widget_defaults (u : FALoadingScreenSettings.Unset)
    (a : FTextAppearance.Unset) :
    ((FALoadingScreenSettings.init u).bWaitForManualStop = false ∧
      (FALoadingScreenSettings.init u).bShowWidgetOverlay = true) ∧
    ((FLoadingWidgetSettings.init a).LoadingIconType = ELoadingIconType.LIT_CircularThrobber ∧
      (FLoadingWidgetSettings.init a).LoadingWidgetType = ELoadingWidgetType.LWT_Horizontal ∧
      (FLoadingWidgetSettings.init a).bLoadingTextRightPosition = true ∧
      (FLoadingWidgetSettings.init a).bLoadingTextTopPosition = true ∧
      (FLoadingWidgetSettings.init a).Space = 1) ∧
    ((FLoadingWidgetSettings.init a).TransformTranslation = ⟨0, 0⟩ ∧
      (FLoadingWidgetSettings.init a).TransformScale = ⟨1, 1⟩ ∧
      (FLoadingWidgetSettings.init a).TransformPivot = ⟨1 / 2, 1 / 2⟩) ∧
    (({} : FImageSequenceSettings).Scale = ⟨1, 1⟩ ∧
      ({} : FImageSequenceSettings).bPlayReverse = false) ∧
    (FALoadingScreenSettings.init u).LoadingWidget =
      FLoadingWidgetSettings.init u.LoadingWidgetAppearance := by
  refine ⟨⟨rfl, rfl⟩, ⟨rfl, rfl, rfl, rfl, ?_⟩, ⟨?_, ?_, ?_⟩, ⟨?_, rfl⟩, rfl⟩
  · show (1.0 : ℚ) = 1
    norm_num
  · show (⟨0.0, 0.0⟩ : FVector2D) = ⟨0, 0⟩
    norm_num
  · show (⟨1.0, 1.0⟩ : FVector2D) = ⟨1, 1⟩
    norm_num
  · show (⟨0.5, 0.5⟩ : FVector2D) = ⟨1 / 2, 1 / 2⟩
    norm_num
  · show (⟨1.0, 1.0⟩ : FVector2D) = ⟨1, 1⟩
    norm_num

/-- C14: defaults of the five layout records.  Every position flag is true;
every `Space` is 1 and every scalar padding is 0; every border alignment is
Fill (horizontal on Classic, Center and both Letterbox borders, vertical on
Sidebar and both Dual Sidebar borders); and the inner vertical alignments of
Sidebar and Dual Sidebar are Center. -/
theorem C14_layout_defaults :
    (({} : FClassicLayoutSettings).bIsWidgetAtBottom = true ∧
      ({} : FClassicLayoutSettings).bIsLoadingWidgetAtLeft = true ∧
      ({} : FCenterLayoutSettings).bIsTipAtBottom = true ∧
      ({} : FLetterboxLayoutSettings).bIsLoadingWidgetAtTop = true ∧
      ({} : FSidebarLayoutSettings).bIsWidgetAtRight = true ∧
      ({} : FSidebarLayoutSettings).bIsLoadingWidgetAtTop = true ∧
      ({} : FDualSidebarLayoutSettings).bIsLoadingWidgetAtRight = true) ∧
    (({} : FClassicLayoutSettings).Space = 1 ∧
      ({} : FSidebarLayoutSettings).Space = 1 ∧
      ({} : FCenterLayoutSettings).TipWidgetVerticalPadding = 0 ∧
      ({} : FSidebarLayoutSettings).WidgetHorizontalPadding = 0) ∧
    (({} : FClassicLayoutSettings).BorderHorizontalAlignment =
        EHorizontalAlignment.HAlign_Fill ∧
      ({} : FCenterLayoutSettings).BorderHorizontalAlignment =
        EHorizontalAlignment.HAlign_Fill ∧
      ({} : FLetterboxLayoutSettings).TopBorderHorizontalAlignment =
        EHorizontalAlignment.HAlign_Fill ∧
      ({} : FLetterboxLayoutSettings).BottomBorderHorizontalAlignment =
        EHorizontalAlignment.HAlign_Fill ∧
      ({} : FSidebarLayoutSettings).BorderVerticalAlignment = EVerticalAlignment.VAlign_Fill ∧
      ({} : FDualSidebarLayoutSettings).LeftBorderVerticalAlignment =
        EVerticalAlignment.VAlign_Fill ∧
      ({} : FDualSidebarLayoutSettings).RightBorderVerticalAlignment =
        EVerticalAlignment.VAlign_Fill) ∧
    (({} : FSidebarLayoutSettings).VerticalAlignment = EVerticalAlignment.VAlign_Center ∧
      ({} : FDualSidebarLayoutSettings).LeftVerticalAlignment =
        EVerticalAlignment.VAlign_Center ∧
      ({} : FDualSidebarLayoutSettings).RightVerticalAlignment =
        EVerticalAlignment.VAlign_Center) ∧
    (∀ u : ULoadingScreenSettings.Unset,
      (ULoadingScreenSettings.init u).Classic = {} ∧
      (ULoadingScreenSettings.init u).Center = {} ∧
      (ULoadingScreenSettings.init u).Letterbox = {} ∧
      (ULoadingScreenSettings.init u).Sidebar = {} ∧
      (ULoadingScreenSettings.init u).DualSidebar = {}) := by
  refine ⟨⟨rfl, rfl, rfl, rfl, rfl, rfl, rfl⟩, ⟨?_, ?_, ?_, ?_⟩,
    ⟨rfl, rfl, rfl, rfl, rfl, rfl, rfl⟩, ⟨rfl, rfl, rfl⟩,
    fun _ => ⟨rfl, rfl, rfl, rfl, rfl⟩⟩
  · show (1.0 : ℚ) = 1
    norm_num
  · show (1.0 : ℚ) = 1
    norm_num
  · show (0.0 : ℚ) = 0
    norm_num
  · show (0.0 : ℚ) = 0
    norm_num

/-- C11: for every composite loading widget with horizontal orientation and a
non-empty label, the children are [indicator, spacing, label] when
`bLoadingTextRightPosition` is true and [label, spacing, indicator] otherwise;
toggling the flag reverses the child order, keeps the indicator, the label and
the spacing value, and toggling it twice gives the original widget again. -/
theorem C11_horizontal_child_order (w : FLoadingWidgetSettings)
    (hH : w.LoadingWidgetType = ELoadingWidgetType.LWT_Horizontal)
    (hL : w.LoadingText ≠ "") :
    (w.bLoadingTextRightPosition = true →
      loadingWidget w =
        Widget.HBox [loadingWidgetIndicator w, Widget.Spacer w.Space, loadingWidgetLabel w]) ∧
    (w.bLoadingTextRightPosition = false →
      loadingWidget w =
        Widget.HBox [loadingWidgetLabel w, Widget.Spacer w.Space, loadingWidgetIndicator w]) ∧
    (loadingWidget w.toggleTextRightPosition).children =
      (loadingWidget w).children.reverse ∧
    (loadingWidgetIndicator w.toggleTextRightPosition = loadingWidgetIndicator w ∧
      loadingWidgetLabel w.toggleTextRightPosition = loadingWidgetLabel w) ∧
    ((loadingWidget w).children.filterMap Widget.spacerSize = [w.Space] ∧
      (loadingWidget w.toggleTextRightPosition).children.filterMap Widget.spacerSize =
        [w.Space]) ∧
    (w.toggleTextRightPosition.toggleTextRightPosition = w ∧
      (loadingWidget w.toggleTextRightPosition.toggleTextRightPosition).children =
        (loadingWidget w).children) := by
  have htt : w.toggleTextRightPosition.toggleTextRightPosition = w := by
    cases w
    simp [FLoadingWidgetSettings.toggleTextRightPosition]
  have h1 : w.bLoadingTextRightPosition = true →
      loadingWidget w =
        Widget.HBox [loadingWidgetIndicator w, Widget.Spacer w.Space, loadingWidgetLabel w] := by
    intro hb
    simp [loadingWidget, loadingWidgetIndicator, loadingWidgetLabel, hH, hL, hb]
  have h2 : w.bLoadingTextRightPosition = false →
      loadingWidget w =
        Widget.HBox [loadingWidgetLabel w, Widget.Spacer w.Space, loadingWidgetIndicator w] := by
    intro hb
    simp [loadingWidget, loadingWidgetIndicator, loadingWidgetLabel, hH, hL, hb]
  have h3 : w.bLoadingTextRightPosition = true →
      loadingWidget w.toggleTextRightPosition =
        Widget.HBox [loadingWidgetLabel w, Widget.Spacer w.Space, loadingWidgetIndicator w] := by
    intro hb
    simp [loadingWidget, loadingWidgetIndicator, loadingWidgetLabel,
      FLoadingWidgetSettings.toggleTextRightPosition, FLoadingWidgetSettings.activeIcon,
      hH, hL, hb]
  have h4 : w.bLoadingTextRightPosition = false →
      loadingWidget w.toggleTextRightPosition =
        Widget.HBox [loadingWidgetIndicator w, Widget.Spacer w.Space, loadingWidgetLabel w] := by
    intro hb
    simp [loadingWidget, loadingWidgetIndicator, loadingWidgetLabel,
      FLoadingWidgetSettings.toggleTextRightPosition, FLoadingWidgetSettings.activeIcon,
      hH, hL, hb]
  refine ⟨h1, h2, ?_, ⟨rfl, rfl⟩, ?_, htt, by rw [htt]⟩
  · cases hb : w.bLoadingTextRightPosition
    · rw [h2 hb, h4 hb]
      rfl
    · rw [h1 hb, h3 hb]
      rfl
  · cases hb : w.bLoadingTextRightPosition
    · rw [h2 hb, h4 hb]
      exact ⟨rfl, rfl⟩
    · rw [h1 hb, h3 hb]
      exact ⟨rfl, rfl⟩

/-- Witness of C11: the sample loading widget is horizontal with the label
"LOADING"; its children are indicator, spacer of size 8, label, and toggling
the flag reverses them. -/
theorem C11_horizontal_child_order_witness :
    sampleLoadingWidget.LoadingWidgetType = ELoadingWidgetType.LWT_Horizontal ∧
    sampleLoadingWidget.LoadingText ≠ "" ∧
    loadingWidget sampleLoadingWidget =
      Widget.HBox [loadingWidgetIndicator sampleLoadingWidget, Widget.Spacer 8,
        loadingWidgetLabel sampleLoadingWidget] ∧
    (loadingWidget sampleLoadingWidget.toggleTextRightPosition).children =
      (loadingWidget sampleLoadingWidget).children.reverse :=
  ⟨rfl, by decide,
    (C11_horizontal_child_order sampleLoadingWidget rfl (by decide)).1 rfl,
    (C11_horizontal_child_order sampleLoadingWidget rfl (by decide)).2.2.1⟩

/-- A step inside a session keeps `bAutoCompleteWhenLoadingCompletes` true
once it reads true: only the start of a new session replaces the snapshot. -/
theorem Controller.step_autoComplete (c : Controller) (sig : HostSignal)
    (hp : c.phase ≠ EPhase.Idle)
    (ha : c.settings.bAutoCompleteWhenLoadingCompletes = true) :
    (c.step sig).settings.bAutoCompleteWhenLoadingCompletes = true := by
  cases sig with
  | PreLoadMap draw =>
    simp only [Controller.step]
    rw [if_neg hp]
    exact ha
  | FirstFrame =>
    simp only [Controller.step]
    split <;> exact ha
  | LoadComplete =>
    simp only [Controller.step]
    rw [if_neg hp]
    unfold Controller.evaluate
    split <;> exact ha
  | UserClicked =>
    simp only [Controller.step]
    split <;> exact ha
  | ManualStop =>
    simp only [Controller.step]
    split <;> exact ha
  | LastMovieStarted =>
    simp only [Controller.step]
    split
    · rfl
    · exact ha
  | Tick dt =>
    simp only [Controller.step]
    split
    · exact ha
    · exact ha
    · unfold Controller.evaluate
      split <;> exact ha
    · exact ha
  | ForceDismiss => exact ha

/-- A run that stays inside the session keeps
`bAutoCompleteWhenLoadingCompletes` true once it reads true. -/
theorem Controller.run_autoComplete (signals : List HostSignal) (c : Controller)
    (ha : c.settings.bAutoCompleteWhenLoadingCompletes = true)
    (hs : ∀ n, (c.run (signals.take n)).phase ≠ EPhase.Idle) :
    (c.run signals).settings.bAutoCompleteWhenLoadingCompletes = true := by
  induction signals generalizing c with
  | nil => exact ha
  | cons sig rest ih =>
    have h0 : c.phase ≠ EPhase.Idle := hs 0
    exact ih (c.step sig) (Controller.step_autoComplete c sig h0 ha) (fun n => hs (n + 1))

/-- C12: the loop-last interaction.  In a session whose playback mode is
loop-last, after the last movie has started `bAutoCompleteWhenLoadingCompletes`
reads true at once and after every further sequence of host signals of the
session (one during which the controller does not return to `Idle`), whatever
value was configured, and each of these states satisfies the dismissal policy;
so a displaying session whose gate is open is dismissed by "load complete". -/
theorem C12_loop_last_forces_auto_complete (c : Controller) (signals : List HostSignal)
    (hp : c.phase ≠ EPhase.Idle)
    (hl : c.settings.PlaybackType = EMoviePlaybackType.MT_LoopLast)
    (hs : ∀ n, ((c.step HostSignal.LastMovieStarted).run (signals.take n)).phase ≠
      EPhase.Idle) :
    (c.step HostSignal.LastMovieStarted).settings.bAutoCompleteWhenLoadingCompletes = true ∧
    (∀ n, ((c.step HostSignal.LastMovieStarted).run
      (signals.take n)).settings.bAutoCompleteWhenLoadingCompletes = true) ∧
    ((c.step HostSignal.LastMovieStarted).run
      signals).settings.bAutoCompleteWhenLoadingCompletes = true ∧
    ((c.step HostSignal.LastMovieStarted).run signals).dismissalPolicy = true ∧
    (((c.step HostSignal.LastMovieStarted).run signals).phase = EPhase.Displaying →
      minimumDisplayTimeReached ((c.step HostSignal.LastMovieStarted).run signals).settings
        ((c.step HostSignal.LastMovieStarted).run signals).elapsed = true →
      (((c.step HostSignal.LastMovieStarted).run signals).step HostSignal.LoadComplete).phase =
        EPhase.Dismissing) := by
  have h0 : (c.step HostSignal.LastMovieStarted).settings.bAutoCompleteWhenLoadingCompletes
      = true := by
    simp only [Controller.step]
    rw [if_pos ⟨hp, hl⟩]
  have hall : ∀ l : List HostSignal,
      (∀ n, ((c.step HostSignal.LastMovieStarted).run (l.take n)).phase ≠ EPhase.Idle) →
      ((c.step HostSignal.LastMovieStarted).run l).settings.bAutoCompleteWhenLoadingCompletes
        = true :=
    fun l hl2 => Controller.run_autoComplete l _ h0 hl2
  have hfull := hall signals hs
  have hpol : ((c.step HostSignal.LastMovieStarted).run signals).dismissalPolicy = true := by
    simp [Controller.dismissalPolicy, hfull]
  refine ⟨h0, ?_, hfull, hpol, ?_⟩
  · intro n
    apply hall
    intro m
    rw [List.take_take]
    exact hs (min m n)
  · intro hd hg
    rw [Controller.step_loadComplete_displaying _ hd]
    simp [hg, hpol]

/-- Witness of C12: on the sample loop-last root, configured not to
auto-complete and not skippable, "load complete" leaves the session displaying
as long as the last movie has not started; once it has started the flag reads
true after a further click, and "load complete" dismisses the session. -/
theorem C12_loop_last_forces_auto_complete_witness :
    ((Controller.start sampleLoopLastRoot).run
      [HostSignal.PreLoadMap ⟨0, 0⟩, HostSignal.FirstFrame]).settings.bAutoCompleteWhenLoadingCompletes
      = false ∧
    ((Controller.start sampleLoopLastRoot).run
      [HostSignal.PreLoadMap ⟨0, 0⟩, HostSignal.FirstFrame, HostSignal.UserClicked,
        HostSignal.LoadComplete]).phase = EPhase.Displaying ∧
    ((((Controller.start sampleLoopLastRoot).run
      [HostSignal.PreLoadMap ⟨0, 0⟩, HostSignal.FirstFrame]).step
        HostSignal.LastMovieStarted).run
          [HostSignal.UserClicked]).settings.bAutoCompleteWhenLoadingCompletes = true ∧
    (((((Controller.start sampleLoopLastRoot).run
      [HostSignal.PreLoadMap ⟨0, 0⟩, HostSignal.FirstFrame]).step
        HostSignal.LastMovieStarted).run [HostSignal.UserClicked]).step
          HostSignal.LoadComplete).phase = EPhase.Dismissing := by
  have hs : ∀ n, ((((Controller.start sampleLoopLastRoot).run
      [HostSignal.PreLoadMap ⟨0, 0⟩, HostSignal.FirstFrame]).step
        HostSignal.LastMovieStarted).run
          (List.take n [HostSignal.UserClicked])).phase ≠ EPhase.Idle := by
    intro n
    rcases n with _ | n
    · decide
    · rw [List.take_succ_cons, List.take_nil]
      decide
  have h := C12_loop_last_forces_auto_complete
    ((Controller.start sampleLoopLastRoot).run
      [HostSignal.PreLoadMap ⟨0, 0⟩, HostSignal.FirstFrame])
    [HostSignal.UserClicked] (by decide) rfl hs
  exact ⟨rfl, rfl, h.2.2.1, h.2.2.2.2 rfl rfl⟩

end AsyncLoadingScreen
